import Mathlib

/-!
Verification of the hospital-ranking backend (`src/apis/nearby.py`,
`src/apis/camera.py`) against its natural-language specification.

The Python handlers are embedded shallowly:

* numbers that Python holds as `float` are modelled as `ℚ` (the handlers only
  divide, multiply and round decimal-valued provider data, so rational
  arithmetic is exact on every value the claims mention);
* the HTTP layer is dropped: each handler becomes a pure function of its
  request body, the provider responses, the oracle functions for the external
  collaborators, and the in-process wait-time store;
* a Python statement that raises an exception that aborts the request is
  modelled with `Except`;
* `random.randint a b` is modelled by feeding an arbitrary stream of naturals
  through `randint`, which maps each draw into the inclusive range `[a, b]`,
  exactly the guarantee the claims rely on;
* the module `apis/wait_time.py` (the `WaitTimeStore`, the OpenAI people
  counter and the readiness probe) is not part of the sources; those leaves
  are modelled from the spec and marked as such in their doc comments.
-/

/-! ### Configuration constants (src/apis/nearby.py, lines 22-40) -/

def RADIUS_M : ℕ := 10000

def RNG_MIN_PEOPLE : ℕ := 20

def RNG_MAX_PEOPLE : ℕ := 40

def RNG_PER_PERSON_MIN : ℕ := 8

def RNG_PER_PERSON_MAX : ℕ := 15

/-- Environment-derived configuration read at module load
(`PRIMARY_CAMERA_ID`, `PRIMARY_CAMERA_URLS`, `PER_PERSON_FOR_CAMERA`,
`ENABLE_MOCK_RNG` in src/apis/nearby.py lines 32-40). -/
structure Config where
  PRIMARY_CAMERA_ID : String
  PRIMARY_CAMERA_URLS : List String
  PER_PERSON_FOR_CAMERA : ℕ
  ENABLE_MOCK_RNG : Bool

/-! ### Wait-time store and records -/

/-- One per-camera detail dict (`{"camera_id": ..., "people": ..., "status": ...}`);
`status` is absent in the dicts built by `push_frames` and the RNG fill. -/
structure CameraDetail where
  camera_id : String
  people : ℕ
  status : Option String
deriving DecidableEq

/-- A wait record as stored in the wait-time cache and returned by
`get_wait_for_hospital`.  Field names follow the Python dicts. -/
structure WaitRecord where
  hospital_id : String
  people : ℕ
  per_person_minutes : ℕ
  estimated_wait_minutes : ℕ
  cameras : List CameraDetail
  ts : String
deriving DecidableEq

/-- Modelled from the spec: the `WaitTimeStore` of `apis/wait_time.py` (not in
the sources) is an in-process map from hospital id to its most recent wait
record; `get` returns the stored record or absent. -/
def WaitStore : Type := String → Option WaitRecord

/-- Modelled from the spec: `get_wait_for_hospital` returns the most recent
record stored for the id, or absent when none was ever stored. -/
def get_wait_for_hospital (s : WaitStore) (id : String) : Option WaitRecord := s id

/-- Modelled from the spec: `set_wait_for_hospital` fully replaces any prior
record for the id (no merge, no eviction); the record carries the
current-time stamp `ts`, supplied by the caller as part of the record. -/
def set_wait_for_hospital (s : WaitStore) (id : String) (r : WaitRecord) : WaitStore :=
  fun k => if k = id then some r else s k

/-- The store in which no record was ever stored. -/
def emptyStore : WaitStore := fun _ => none

/-! ### Candidates and route-matrix rows -/

/-- A candidate place as built by `_places_nearby_hospitals`
(src/apis/nearby.py lines 77-83): keys `id`, `name`, `lat`, `lng`, `maps_url`.
An absent Google id gives `id = ""` (the empty string is falsy in Python). -/
structure Place where
  id : String
  name : String
  lat : ℚ
  lng : ℚ
  maps_url : Option String
deriving DecidableEq

/-- One row of the route-matrix response (field mask
`originIndex,destinationIndex,status,condition,distanceMeters,duration`).
`statusCode` is `row.get("status", {}).get("code")`; `none` models both an
absent `status` object and an absent `code` key.  The handler reads
`row["destinationIndex"]` unconditionally, so the model makes it total. -/
structure MatrixRow where
  destinationIndex : ℕ
  statusCode : Option ℤ
  condition : Option String
  distanceMeters : Option ℚ
  duration : Option String
deriving DecidableEq

/-- `if row.get("status", {}).get("code"): continue` skips a row whose status
code is truthy (present and nonzero); `row.get("condition") != "ROUTE_EXISTS"`
skips every other condition.  A row passing both checks is counted as valid. -/
def validRow (r : MatrixRow) : Bool :=
  (match r.statusCode with
   | some c => c = 0
   | none => true) && r.condition = some "ROUTE_EXISTS"

/-- Digit test and value of a digit-character list, used by the decimal
parser.  (String-library functions are avoided in favour of structural
recursion over `String.data` so that every definition evaluates inside the
kernel; the semantics match Python's character-level operations.) -/
def allDigits (cs : List Char) : Bool := cs.all Char.isDigit

def digitsVal (cs : List Char) : ℕ := cs.foldl (fun a c => a * 10 + (c.toNat - 48)) 0

/-- `split` on the dot character, Python `str.split(".")` semantics. -/
def splitOnDot : List Char → List (List Char)
  | [] => [[]]
  | c :: rest =>
      let r := splitOnDot rest
      if c = '.' then [] :: r
      else
        match r with
        | h :: t => (c :: h) :: t
        | [] => [[c]]

/-- Python `float(...)` restricted to plain decimal literals (optional sign,
digits, optional fractional part — the shapes `"600"`, `"600.5"`, `"1."`,
`".5"`).  Exotic float syntax (exponents, `inf`, `nan`, inner whitespace) is
not modelled; the route-matrix durations the handler parses are always plain
decimals followed by `s`. -/
def parseUnsignedDecimal (cs : List Char) : Option ℚ :=
  match splitOnDot cs with
  | [a] => if a ≠ [] ∧ allDigits a then some (digitsVal a) else none
  | [a, b] =>
      if (a ≠ [] ∨ b ≠ []) ∧ allDigits a ∧ allDigits b then
        some ((digitsVal a : ℚ) + (digitsVal b : ℚ) / (10 : ℚ) ^ b.length)
      else none
  | _ => none

def parseDecimal (s : String) : Option ℚ :=
  match s.data with
  | '-' :: rest => (parseUnsignedDecimal rest).map (fun q => -q)
  | '+' :: rest => parseUnsignedDecimal rest
  | cs => parseUnsignedDecimal cs

/-- `_parse_duration_seconds` (src/apis/nearby.py lines 111-119): a string
ending in `"s"` whose prefix parses as a float gives that number of seconds;
anything else gives `None`. -/
def _parse_duration_seconds (val : String) : Option ℚ :=
  if val.data.getLast? = some 's' then parseDecimal (String.mk val.data.dropLast)
  else none

/-- Python `round(q, d)` modelled as exact rational rounding to `d` decimal
places.  (Python rounds binary floats with ties to even; the handler's inputs
never hit a tie in the claims settled here, and only nullness and relative
order of the rounded values matter to them.) -/
def roundTo (q : ℚ) (d : ℕ) : ℚ := ((⌊q * (10 : ℚ) ^ d + 1 / 2⌋ : ℤ) : ℚ) / (10 : ℚ) ^ d

/-- `dist_km = round(row["distanceMeters"] / 1000.0, 2) if "distanceMeters" in row else None`. -/
def distOf (r : MatrixRow) : Option ℚ := r.distanceMeters.map (fun m => roundTo (m / 1000) 2)

/-- `eta_min = round(_parse_duration_seconds(row["duration"]) / 60.0, 1) if
"duration" in row else None`.  When `duration` is present but unparseable,
`_parse_duration_seconds` returns `None` and `None / 60.0` raises a
`TypeError`, aborting the request: the `Except` error case. -/
def etaOfE (r : MatrixRow) : Except Unit (Option ℚ) :=
  match r.duration with
  | none => Except.ok none
  | some s =>
      match _parse_duration_seconds s with
      | none => Except.error ()
      | some sec => Except.ok (some (roundTo (sec / 60) 1))

/-- The value `etaOfE` yields whenever it does not raise. -/
def etaOf (r : MatrixRow) : Option ℚ :=
  match r.duration with
  | none => none
  | some s => (_parse_duration_seconds s).map (fun sec => roundTo (sec / 60) 1)

/-- The correlation loop of `nearby` (src/apis/nearby.py lines 164-174): walk
the matrix rows in order, skip invalid rows, and assign
`stats[destinationIndex] = (dist_km, eta_min)` with dict semantics
(last write wins).  The accumulator holds the most recent binding first, so
`List.lookup` retrieves the latest write. -/
def correlateAux (acc : List (ℕ × Option ℚ × Option ℚ)) :
    List MatrixRow → Except Unit (List (ℕ × Option ℚ × Option ℚ))
  | [] => Except.ok acc
  | r :: rest =>
      if validRow r then
        match etaOfE r with
        | Except.error e => Except.error e
        | Except.ok eta => correlateAux ((r.destinationIndex, distOf r, eta) :: acc) rest
      else correlateAux acc rest

def correlate (matrix : List MatrixRow) : Except Unit (List (ℕ × Option ℚ × Option ℚ)) :=
  correlateAux [] matrix

/-! ### Enriched response rows -/

/-- One element of the `items` list built by `nearby`
(src/apis/nearby.py lines 183-197).  Dict keys that may be absent are
`Option`s; `camera_used` stands for the `_camera` debug dict's `"used"` flag
(the attached error string is not modelled — no claim mentions it). -/
structure Row where
  hospital_id : String
  hospital_name : String
  google_maps_location_link : Option String
  distance_km : Option ℚ
  eta_minutes : Option ℚ
  current_people : Option ℕ
  current_estimated_wait_minutes : Option ℕ
  wait_last_updated : Option String
  camera_used : Option Bool
deriving DecidableEq

/-- `hospital_id = p.get("id") or p.get("name")`, then
`if hospital_id.startswith("places/"): hospital_id = hospital_id.split("/", 1)[1]`
(src/apis/nearby.py lines 178-180).  For a string starting with `"places/"`
the first `/` sits right after `places`, so `split("/", 1)[1]` is exactly the
suffix after the 7-character marker. -/
def startsWithPlaces (s : String) : Bool := List.isPrefixOf "places/".data s.data

def dropPlaces (s : String) : String := String.mk (s.data.drop 7)

def hospitalIdOf (p : Place) : String :=
  let raw := if p.id = "" then p.name else p.id
  if startsWithPlaces raw then dropPlaces raw else raw

/-- Build the row for the candidate at position `i`
(src/apis/nearby.py lines 177-198): route stats looked up by position with
`(None, None)` as default, then any cached wait record attached. -/
def enrichRow (store : WaitStore) (stats : List (ℕ × Option ℚ × Option ℚ)) (i : ℕ)
    (p : Place) : Row :=
  let hid := hospitalIdOf p
  let st := (List.lookup i stats).getD (none, none)
  let base : Row :=
    { hospital_id := hid
      hospital_name := p.name
      google_maps_location_link := p.maps_url
      distance_km := st.1
      eta_minutes := st.2
      current_people := none
      current_estimated_wait_minutes := none
      wait_last_updated := none
      camera_used := none }
  match get_wait_for_hospital store hid with
  | none => base
  | some wt =>
      { base with
        current_people := some wt.people
        current_estimated_wait_minutes := some wt.estimated_wait_minutes
        wait_last_updated := some wt.ts }

/-- `for i, p in enumerate(places)` with the index threaded explicitly. -/
def enrichList (store : WaitStore) (stats : List (ℕ × Option ℚ × Option ℚ)) :
    ℕ → List Place → List Row
  | _, [] => []
  | i, p :: rest => enrichRow store stats i p :: enrichList store stats (i + 1) rest

def enrich (places : List Place) (stats : List (ℕ × Option ℚ × Option ℚ))
    (store : WaitStore) : List Row :=
  enrichList store stats 0 places

/-! ### The sort (src/apis/nearby.py line 201)

`items.sort(key=lambda x: (x["eta_minutes"] is None, x["eta_minutes"], x["distance_km"]))`
is a stable sort comparing key tuples with Python `<`.  Tuple comparison is
lexicographic: walk the components, skip equal ones (`==` is total on these
types), and return `<` of the first differing pair.  `<` between `None` and a
float — or between `None` and `None` — raises a `TypeError`, modelled as the
`none` result of the comparison and the `Except` error of the sort. -/

/-- Python `<` on a key-tuple component of type `float | None`: defined only
between two floats.  (It is only consulted on components that compare unequal,
so the `none`/`none` case, equal and therefore skipped, never reaches it.) -/
def pyOptLt : Option ℚ → Option ℚ → Option Bool
  | some a, some b => some (decide (a < b))
  | _, _ => none

/-- The sort key of a row: `(eta is None, eta, dist)`. -/
def keyTuple (r : Row) : Bool × Option ℚ × Option ℚ :=
  (r.eta_minutes.isNone, r.eta_minutes, r.distance_km)

/-- Python `<` on key tuples (`False < True` on the bool component). -/
def pyKeyLt (k1 k2 : Bool × Option ℚ × Option ℚ) : Option Bool :=
  if k1.1 ≠ k2.1 then some (!k1.1 && k2.1)
  else if k1.2.1 ≠ k2.2.1 then pyOptLt k1.2.1 k2.2.1
  else if k1.2.2 ≠ k2.2.2 then pyOptLt k1.2.2 k2.2.2
  else some false

def pyRowLt (r s : Row) : Option Bool := pyKeyLt (keyTuple r) (keyTuple s)

/-- Stable sort with the Python key comparison, raising whenever a performed
comparison is undefined.  (CPython's timsort performs a different comparison
sequence; the two agree on every list whose members are pairwise comparable,
and on two-element lists, where any sort must compare the unique pair.) -/
def insertE (x : Row) : List Row → Except Unit (List Row)
  | [] => Except.ok [x]
  | s :: t =>
      match pyRowLt s x with
      | none => Except.error ()
      | some true =>
          match insertE x t with
          | Except.error e => Except.error e
          | Except.ok t' => Except.ok (s :: t')
      | some false => Except.ok (x :: s :: t)

def sortE : List Row → Except Unit (List Row)
  | [] => Except.ok []
  | x :: xs =>
      match sortE xs with
      | Except.error e => Except.error e
      | Except.ok l => insertE x l

/-- The abstract sort key: rows with both route fields known map to the
lexicographic pair `(eta, dist)`, rows with both unknown map to `⊤` (sorting
last).  On rows whose two route fields are consistently null this is exactly
the order of the Python key tuple. -/
def key (r : Row) : WithTop (Lex (ℚ × ℚ)) :=
  match r.eta_minutes, r.distance_km with
  | some e, some d => ((toLex (e, d) : Lex (ℚ × ℚ)) : WithTop (Lex (ℚ × ℚ)))
  | _, _ => ⊤

def keyLE (a b : Row) : Prop := key a ≤ key b

instance : DecidableRel keyLE := fun a b => inferInstanceAs (Decidable (key a ≤ key b))

instance : IsTotal Row keyLE := ⟨fun a b => le_total (key a) (key b)⟩

instance : IsTrans Row keyLE := ⟨fun _ _ _ h h' => le_trans h h'⟩

/-- A row whose `eta_minutes` and `distance_km` are null together or known
together (every row arising from a route-matrix row carrying both
`distanceMeters` and `duration`, and every row with no route). -/
def NullConsistent (r : Row) : Prop := r.eta_minutes = none ↔ r.distance_km = none

instance (r : Row) : Decidable (NullConsistent r) :=
  inferInstanceAs (Decidable (_ ↔ _))

/-! ### Target designation and camera capture (src/apis/nearby.py lines 122-157, 204-224) -/

/-- The scan `for idx, it in enumerate(items): if it["hospital_id"] ==
PRIMARY_CAMERA_ID: target_idx = idx; break`. -/
def firstIdx (pid : String) : List Row → Option ℕ
  | [] => none
  | r :: t => if r.hospital_id = pid then some 0 else (firstIdx pid t).map (· + 1)

/-- Target selection (src/apis/nearby.py lines 204-212): the first row whose
id equals the configured `PRIMARY_CAMERA_ID` when that is nonempty and
matches; else index 0 when the list is nonempty; else none. -/
def chooseTarget (cfg : Config) (items : List Row) : Option ℕ :=
  let explicit :=
    if cfg.PRIMARY_CAMERA_ID ≠ "" then firstIdx cfg.PRIMARY_CAMERA_ID items else none
  match explicit with
  | some i => some i
  | none => if items = [] then none else some 0

/-- The per-camera loop of `_capture_and_count` (src/apis/nearby.py lines
147-157).  `camFetch` composes `_fetch_camera_bytes` with the base64 encoding:
`none` models a fetch that failed, returned a non-ok status or under 100
bytes; `some b64` the encoded frame.  `counts` is the opaque people counter
(modelled from the spec: `_count_people_from_image_b64` lives in the missing
`apis/wait_time.py`). -/
def captureGo (camFetch : String → Option String) (counts : String → ℕ) :
    ℕ → List String → ℕ × List CameraDetail
  | _, [] => (0, [])
  | i, u :: rest =>
      let camId := "cam-" ++ toString (i + 1)
      match camFetch u with
      | none =>
          let (tot, det) := captureGo camFetch counts (i + 1) rest
          (tot, { camera_id := camId, people := 0, status := some "no_image" } :: det)
      | some b64 =>
          let n := counts b64
          let (tot, det) := captureGo camFetch counts (i + 1) rest
          (n + tot, { camera_id := camId, people := n, status := some "ok" } :: det)

/-- `_capture_and_count` (src/apis/nearby.py lines 134-157): empty URL list
short-circuits to zero; otherwise the OpenAI readiness probe (`is_openai_ready`,
modelled from the spec as a boolean since `apis/wait_time.py` is missing) must
hold or the whole attempt raises `RuntimeError`. -/
def _capture_and_count (urls : List String) (ocrReady : Bool)
    (camFetch : String → Option String) (counts : String → ℕ) :
    Except String (ℕ × List CameraDetail) :=
  if urls = [] then Except.ok (0, [])
  else if ocrReady then Except.ok (captureGo camFetch counts 0 urls)
  else Except.error "OpenAI vision not configured"

/-- Replace the element at one position, leaving the rest untouched
(`items[target_idx][...] = ...`). -/
def modifyAt (f : Row → Row) : ℕ → List Row → List Row
  | _, [] => []
  | 0, r :: t => f r :: t
  | n + 1, r :: t => r :: modifyAt f n t

/-- The camera block (src/apis/nearby.py lines 214-224): when a target exists
and camera URLs are configured, a successful capture overwrites the target
row's occupancy fields in the response (the wait-time store is not touched);
a failed capture only annotates the row (`_camera: {"used": False}`) and the
request continues. -/
def applyCamera (cfg : Config) (ocrReady : Bool) (camFetch : String → Option String)
    (counts : String → ℕ) (now : String) (target : Option ℕ) (items : List Row) :
    List Row :=
  match target with
  | none => items
  | some t =>
      if cfg.PRIMARY_CAMERA_URLS = [] then items
      else
        match _capture_and_count cfg.PRIMARY_CAMERA_URLS ocrReady camFetch counts with
        | Except.ok (people, _cams) =>
            modifyAt
              (fun r =>
                { r with
                  current_people := some people
                  current_estimated_wait_minutes :=
                    some (people * cfg.PER_PERSON_FOR_CAMERA)
                  wait_last_updated := some now
                  camera_used := some true })
              t items
        | Except.error _ => modifyAt (fun r => { r with camera_used := some false }) t items

/-! ### Synthetic fallback (src/apis/nearby.py lines 226-249) -/

/-- `random.randint lo hi` draws from the inclusive range `[lo, hi]`; the
ambient randomness is supplied as a stream of naturals and folded into the
range, which is all `randint` guarantees. -/
def randint (lo hi x : ℕ) : ℕ := lo + x % (hi + 1 - lo)

/-- The body of the RNG loop for one uncovered hospital
(src/apis/nearby.py lines 235-249): draw people and per-person minutes,
derive the estimate, persist the record, read it back and copy its fields
into the response row.  (The read-back of a just-written key always succeeds
under the store model; the dead branch keeps the row unchanged where the
Python would raise.) -/
def syntheticFill (now : String) (x1 x2 : ℕ) (r : Row) (s : WaitStore) :
    Row × WaitStore :=
  let people := randint RNG_MIN_PEOPLE RNG_MAX_PEOPLE x1
  let perPerson := randint RNG_PER_PERSON_MIN RNG_PER_PERSON_MAX x2
  let est := people * perPerson
  let rec1 : WaitRecord :=
    { hospital_id := r.hospital_id
      people := people
      per_person_minutes := perPerson
      estimated_wait_minutes := est
      cameras := [{ camera_id := "rng", people := people, status := none }]
      ts := now }
  let s1 := set_wait_for_hospital s r.hospital_id rec1
  match get_wait_for_hospital s1 r.hospital_id with
  | some wt =>
      ({ r with
          current_people := some wt.people
          current_estimated_wait_minutes := some wt.estimated_wait_minutes
          wait_last_updated := some wt.ts },
        s1)
  | none => (r, s1)

/-- The RNG loop (src/apis/nearby.py lines 227-249): the target row is always
skipped, rows that already carry occupancy are skipped, and when the mock RNG
is disabled everything is skipped; every other row receives a synthetic fill.
`idx` is the enumeration index, `k` the position in the random stream. -/
def rngLoop (cfg : Config) (target : Option ℕ) (rng : ℕ → ℕ) (now : String) :
    ℕ → ℕ → List Row → WaitStore → List Row × WaitStore
  | _, _, [], s => ([], s)
  | idx, k, r :: t, s =>
      if some idx = target ∨ r.current_people.isSome ∨ cfg.ENABLE_MOCK_RNG = false then
        let p := rngLoop cfg target rng now (idx + 1) k t s
        (r :: p.1, p.2)
      else
        let q := syntheticFill now (rng k) (rng (k + 1)) r s
        let p := rngLoop cfg target rng now (idx + 1) (k + 2) t q.2
        (q.1 :: p.1, p.2)

/-! ### The POST /nearby-hospitals handler (src/apis/nearby.py lines 160-251) -/

structure NearbyResponse where
  count : ℕ
  hospitals : List Row
deriving DecidableEq

/-- The `nearby` handler after the two provider calls: `places` is the parsed
place-search response, `matrix` the route-matrix response, `store` the
process-wide wait-time cache, `now` the current time stamp, and the remaining
arguments the external-collaborator oracles.  An `Except.error` is an
uncaught exception aborting the request. -/
def nearby (cfg : Config) (places : List Place) (matrix : List MatrixRow)
    (store : WaitStore) (ocrReady : Bool) (camFetch : String → Option String)
    (counts : String → ℕ) (rng : ℕ → ℕ) (now : String) :
    Except Unit (NearbyResponse × WaitStore) :=
  match correlate matrix with
  | Except.error e => Except.error e
  | Except.ok stats =>
      let items := enrich places stats store
      match sortE items with
      | Except.error e => Except.error e
      | Except.ok sorted =>
          let target := chooseTarget cfg sorted
          let items2 := applyCamera cfg ocrReady camFetch counts now target sorted
          let p := rngLoop cfg target rng now 0 0 items2 store
          Except.ok ({ count := p.1.length, hospitals := p.1 }, p.2)

/-! ### The /camera-frame endpoints (src/apis/camera.py) -/

/-- The validated request body of `POST /camera-frame`.  Pydantic rejects a
supplied `per_person_minutes` outside `[1, 60]` before the handler runs; the
handler itself sees `None` or a value in range. -/
structure CameraPushIn where
  hospital_id : String
  images_b64 : List String
  per_person_minutes : Option ℕ
deriving DecidableEq

/-- `cams.append({"camera_id": f"cam-{i+1}", "people": n})` over the images. -/
def camsOf (counts : String → ℕ) : ℕ → List String → List CameraDetail
  | _, [] => []
  | i, b :: rest =>
      { camera_id := "cam-" ++ toString (i + 1), people := counts b, status := none }
        :: camsOf counts (i + 1) rest

/-- `push_frames` (src/apis/camera.py lines 23-50): 400 on an empty hospital
id or image list; otherwise sum the per-image counts (`counts` is the opaque
people counter, modelled from the spec since `apis/wait_time.py` is missing),
default `per_person_minutes` with Python `or` truthiness, store the record
and return the read-back.  The result pairs the HTTP outcome (error =
status code) with the store after the call. -/
def push_frames (store : WaitStore) (counts : String → ℕ) (body : CameraPushIn)
    (now : String) : Except ℕ WaitRecord × WaitStore :=
  if body.hospital_id = "" then (Except.error 400, store)
  else if body.images_b64 = [] then (Except.error 400, store)
  else
    let perPerson :=
      match body.per_person_minutes with
      | none => 10
      | some p => if p = 0 then 10 else p
    let total := (body.images_b64.map counts).sum
    let est := total * perPerson
    let rec1 : WaitRecord :=
      { hospital_id := body.hospital_id
        people := total
        per_person_minutes := perPerson
        estimated_wait_minutes := est
        cameras := camsOf counts 0 body.images_b64
        ts := now }
    let store' := set_wait_for_hospital store body.hospital_id rec1
    match get_wait_for_hospital store' body.hospital_id with
    | none => (Except.error 500, store')
    | some latest => (Except.ok latest, store')

/-- `get_latest_camera_estimate` (src/apis/camera.py lines 52-57): the stored
record, or 404 when none exists; the store is returned unchanged. -/
def get_latest_camera_estimate (store : WaitStore) (hospital_id : String) :
    Except ℕ WaitRecord × WaitStore :=
  match get_wait_for_hospital store hospital_id with
  | none => (Except.error 404, store)
  | some rec1 => (Except.ok rec1, store)

/-! ### Correlation lemmas -/

/-- The last valid row of the matrix carrying a given destination index — the
effective binding under the loop's last-write-wins dict assignment. -/
def lastRoute (rows : List MatrixRow) (i : ℕ) : Option MatrixRow :=
  match rows with
  | [] => none
  | r :: rest =>
      match lastRoute rest i with
      | some x => some x
      | none => if validRow r = true ∧ r.destinationIndex = i then some r else none

lemma etaOf_of_etaOfE {r : MatrixRow} {v : Option ℚ} (h : etaOfE r = Except.ok v) :
    etaOf r = v := by
  cases hd : r.duration with
  | none =>
      simp [etaOfE, hd] at h
      subst h
      simp [etaOf, hd]
  | some s =>
      cases hp : _parse_duration_seconds s with
      | none => simp [etaOfE, hd, hp] at h
      | some sec =>
          simp [etaOfE, hd, hp] at h
          subst h
          simp [etaOf, hd, hp]

lemma correlateAux_lookup (rows : List MatrixRow) :
    ∀ acc stats, correlateAux acc rows = Except.ok stats → ∀ i : ℕ,
      List.lookup i stats =
        match lastRoute rows i with
        | some r => some (distOf r, etaOf r)
        | none => List.lookup i acc := by
  induction rows with
  | nil =>
      intro acc stats h i
      simp [correlateAux] at h
      subst h
      simp [lastRoute]
  | cons r rest ih =>
      intro acc stats h i
      by_cases hv : validRow r = true
      · rw [correlateAux, if_pos hv] at h
        cases he : etaOfE r with
        | error e => rw [he] at h; exact absurd h (by simp)
        | ok eta =>
            rw [he] at h
            have hlk := ih _ _ h i
            cases hl : lastRoute rest i with
            | some x => rw [hl] at hlk; simp [lastRoute, hl, hlk]
            | none =>
                rw [hl] at hlk
                by_cases hdi : r.destinationIndex = i
                · have : List.lookup i ((r.destinationIndex, distOf r, eta) :: acc)
                      = some (distOf r, eta) := by
                    simp [List.lookup, hdi.symm]
                  rw [this] at hlk
                  simp [lastRoute, hl, hv, hdi, hlk, etaOf_of_etaOfE he]
                · have : List.lookup i ((r.destinationIndex, distOf r, eta) :: acc)
                      = List.lookup i acc := by
                    have : (i == r.destinationIndex) = false := by
                      simp [Ne.symm hdi]
                    simp [List.lookup, this]
                  rw [this] at hlk
                  simp [lastRoute, hl, hdi, hlk]
      · rw [correlateAux, if_neg hv] at h
        have hlk := ih _ _ h i
        cases hl : lastRoute rest i with
        | some x => rw [hl] at hlk; simp [lastRoute, hl, hlk]
        | none => rw [hl] at hlk; simp [lastRoute, hl, hv, hlk]

lemma correlateAux_parses (rows : List MatrixRow) :
    ∀ acc stats, correlateAux acc rows = Except.ok stats →
      ∀ r ∈ rows, validRow r = true → ∃ v, etaOfE r = Except.ok v := by
  induction rows with
  | nil => intro acc stats _ r hr; exact absurd hr (by simp)
  | cons x rest ih =>
      intro acc stats h r hr hval
      rcases List.mem_cons.mp hr with rfl | hr'
      · rw [correlateAux, if_pos hval] at h
        cases he : etaOfE r with
        | error e => rw [he] at h; exact absurd h (by simp)
        | ok v => exact ⟨v, rfl⟩
      · by_cases hv : validRow x = true
        · rw [correlateAux, if_pos hv] at h
          cases he : etaOfE x with
          | error e => rw [he] at h; exact absurd h (by simp)
          | ok v => rw [he] at h; exact ih _ _ h r hr' hval
        · rw [correlateAux, if_neg hv] at h
          exact ih _ _ h r hr' hval

lemma lastRoute_spec (rows : List MatrixRow) (i : ℕ) :
    ∀ r, lastRoute rows i = some r →
      r ∈ rows ∧ validRow r = true ∧ r.destinationIndex = i := by
  induction rows with
  | nil => intro r h; simp [lastRoute] at h
  | cons x rest ih =>
      intro r h
      rw [lastRoute] at h
      cases hl : lastRoute rest i with
      | some y =>
          rw [hl] at h
          obtain ⟨hm, hv, hd⟩ := ih y hl
          cases h
          exact ⟨List.mem_cons_of_mem _ hm, hv, hd⟩
      | none =>
          rw [hl] at h
          by_cases hc : validRow x = true ∧ x.destinationIndex = i
          · rw [if_pos hc] at h
            cases h
            exact ⟨List.mem_cons_self _ _, hc.1, hc.2⟩
          · rw [if_neg hc] at h
            exact absurd h (by simp)

/-! ### Enrichment lemmas -/

lemma enrichRow_distance_km (store : WaitStore) (stats : List (ℕ × Option ℚ × Option ℚ))
    (i : ℕ) (p : Place) :
    (enrichRow store stats i p).distance_km = ((List.lookup i stats).getD (none, none)).1 := by
  cases h : get_wait_for_hospital store (hospitalIdOf p) <;> simp [enrichRow, h]

lemma enrichRow_eta_minutes (store : WaitStore) (stats : List (ℕ × Option ℚ × Option ℚ))
    (i : ℕ) (p : Place) :
    (enrichRow store stats i p).eta_minutes = ((List.lookup i stats).getD (none, none)).2 := by
  cases h : get_wait_for_hospital store (hospitalIdOf p) <;> simp [enrichRow, h]

lemma enrichRow_hospital_id (store : WaitStore) (stats : List (ℕ × Option ℚ × Option ℚ))
    (i : ℕ) (p : Place) :
    (enrichRow store stats i p).hospital_id = hospitalIdOf p := by
  cases h : get_wait_for_hospital store (hospitalIdOf p) <;> simp [enrichRow, h]

lemma enrichRow_current_people (store : WaitStore) (stats : List (ℕ × Option ℚ × Option ℚ))
    (i : ℕ) (p : Place) :
    (enrichRow store stats i p).current_people
      = (get_wait_for_hospital store (hospitalIdOf p)).map (fun wt => wt.people) := by
  cases h : get_wait_for_hospital store (hospitalIdOf p) <;> simp [enrichRow, h]

lemma enrichList_getElem? (store : WaitStore) (stats : List (ℕ × Option ℚ × Option ℚ)) :
    ∀ (places : List Place) (i j : ℕ),
      (enrichList store stats i places)[j]?
        = (places[j]?).map (fun p => enrichRow store stats (i + j) p) := by
  intro places
  induction places with
  | nil => intro i j; simp [enrichList]
  | cons p rest ih =>
      intro i j
      cases j with
      | zero => simp [enrichList]
      | succ j =>
          have harith : i + 1 + j = i + (j + 1) := by omega
          simp [enrichList, ih (i + 1) j, harith]

deriving instance DecidableEq for Except

/-! ### Claim C1 -/

/-- Concrete data refuting C1 as stated: one candidate; the matrix contains a
row for destination index 0 whose status carries no error code and whose
condition is `ROUTE_EXISTS`, yet the row omits `distanceMeters` and
`duration` (the Routes API omits zero-valued fields). -/
def c1Place : Place :=
  { id := "H1", name := "Hospital One", lat := 3, lng := 101, maps_url := none }

def c1Mrow : MatrixRow :=
  { destinationIndex := 0, statusCode := none, condition := some "ROUTE_EXISTS"
    distanceMeters := none, duration := none }

/-- C1 as stated is false: the matrix holds a row with `destinationIndex = 0`,
no error code and condition `ROUTE_EXISTS`, yet the candidate at position 0
receives `distance_km = None` and `eta_minutes = None`, because the valid row
carries neither `distanceMeters` nor `duration`. -/
theorem c1_counterexample :
    validRow c1Mrow = true ∧ c1Mrow.destinationIndex = 0 ∧
      correlate [c1Mrow] = Except.ok [(0, (none, none))] ∧
      (enrich [c1Place] [(0, (none, none))] emptyStore).map
          (fun r => (r.distance_km, r.eta_minutes))
        = [(none, none)] := by
  refine ⟨by decide, rfl, by decide, ?_⟩
  decide

/-- C1 (amended): assuming the request survives the correlation loop
(`correlate` succeeds; it only raises on a valid row with an unparseable
`duration`), the candidate at position `i` receives `distance_km` and
`eta_minutes` both null whenever the matrix holds no row with destination
index `i` whose status carries no error code and whose condition is
`ROUTE_EXISTS` — and no error is raised for such missing indices, the row is
produced regardless.  When such rows exist, the last one decides the fields:
`distance_km` is non-null exactly when that row carries `distanceMeters`, and
`eta_minutes` is non-null exactly when it carries `duration`. -/
theorem c1_route_correlation (places : List Place) (matrix : List MatrixRow)
    (store : WaitStore) (stats : List (ℕ × Option ℚ × Option ℚ))
    (hok : correlate matrix = Except.ok stats) (i : ℕ) (row : Row)
    (hrow : (enrich places stats store)[i]? = some row) :
    match lastRoute matrix i with
    | none => row.distance_km = none ∧ row.eta_minutes = none
    | some r =>
        (row.distance_km ≠ none ↔ r.distanceMeters ≠ none) ∧
          (row.eta_minutes ≠ none ↔ r.duration ≠ none) := by
  unfold enrich at hrow
  rw [enrichList_getElem? store stats places 0 i] at hrow
  cases hp : places[i]? with
  | none => rw [hp] at hrow; simp at hrow
  | some p =>
      rw [hp] at hrow
      simp at hrow
      have hdk := enrichRow_distance_km store stats i p
      have hek := enrichRow_eta_minutes store stats i p
      rw [hrow] at hdk hek
      have hlk := correlateAux_lookup matrix [] stats hok i
      cases hl : lastRoute matrix i with
      | none =>
          rw [hl] at hlk
          have hnone : List.lookup i stats = none := hlk
          rw [hnone] at hdk hek
          exact ⟨hdk, hek⟩
      | some r =>
          rw [hl] at hlk
          have hsome : List.lookup i stats = some (distOf r, etaOf r) := hlk
          rw [hsome] at hdk hek
          simp at hdk hek
          obtain ⟨hmem, hval, _⟩ := lastRoute_spec matrix i r hl
          obtain ⟨v, hv⟩ := correlateAux_parses matrix [] stats hok r hmem hval
          constructor
          · rw [hdk]
            unfold distOf
            cases r.distanceMeters <;> simp
          · rw [hek]
            cases hdur : r.duration with
            | none => simp [etaOf, hdur]
            | some s =>
                cases hps : _parse_duration_seconds s with
                | none => simp [etaOfE, hdur, hps] at hv
                | some sec => simp [etaOf, hdur, hps]

/-- Concrete data exercising `c1_route_correlation`: an error-status row
followed by a valid field-less row for index 0, so the last valid row
decides the (null) fields. -/
def c1wPlace : Place :=
  { id := "H2", name := "Hospital Two", lat := 3, lng := 101, maps_url := none }

def c1wMrowBad : MatrixRow :=
  { destinationIndex := 0, statusCode := some 13, condition := some "ROUTE_EXISTS"
    distanceMeters := none, duration := none }

def c1wMrow : MatrixRow :=
  { destinationIndex := 0, statusCode := none, condition := some "ROUTE_EXISTS"
    distanceMeters := none, duration := none }

def c1wStats : List (ℕ × Option ℚ × Option ℚ) := [(0, (none, none))]

def c1wRow : Row :=
  { hospital_id := "H2", hospital_name := "Hospital Two"
    google_maps_location_link := none, distance_km := none, eta_minutes := none
    current_people := none, current_estimated_wait_minutes := none
    wait_last_updated := none, camera_used := none }

theorem c1_witness :
    correlate [c1wMrowBad, c1wMrow] = Except.ok c1wStats ∧
      (enrich [c1wPlace] c1wStats emptyStore)[0]? = some c1wRow ∧
      (match lastRoute [c1wMrowBad, c1wMrow] 0 with
       | none => c1wRow.distance_km = none ∧ c1wRow.eta_minutes = none
       | some r =>
           (c1wRow.distance_km ≠ none ↔ r.distanceMeters ≠ none) ∧
             (c1wRow.eta_minutes ≠ none ↔ r.duration ≠ none)) :=
  ⟨by decide, by decide,
    c1_route_correlation [c1wPlace] [c1wMrowBad, c1wMrow] emptyStore c1wStats (by decide) 0
      c1wRow (by decide)⟩

/-! ### Sort lemmas -/

/-- On rows whose route fields are consistently null, the Python key
comparison is total and computes exactly the strict order of the abstract
`key` (`WithTop (Lex (ℚ × ℚ))`, null rows at `⊤`). -/
lemma pyRowLt_eq_key {r s : Row} (hr : NullConsistent r) (hs : NullConsistent s) :
    pyRowLt r s = some (decide (key r < key s)) := by
  unfold NullConsistent at hr hs
  unfold pyRowLt pyKeyLt keyTuple pyOptLt key
  cases her : r.eta_minutes with
  | none =>
      have hdr : r.distance_km = none := hr.mp her
      cases hes : s.eta_minutes with
      | none =>
          have hds : s.distance_km = none := hs.mp hes
          simp [her, hes, hdr, hds]
      | some es =>
          have hds : s.distance_km ≠ none := by
            intro h
            rw [hs.mpr h] at hes
            exact Option.noConfusion hes
          cases hds' : s.distance_km with
          | none => exact absurd hds' hds
          | some ds => simp [her, hes, hdr, hds']
  | some er =>
      have hdr : r.distance_km ≠ none := by
        intro h
        rw [hr.mpr h] at her
        exact Option.noConfusion her
      cases hdr' : r.distance_km with
      | none => exact absurd hdr' hdr
      | some dr =>
          cases hes : s.eta_minutes with
          | none =>
              have hds : s.distance_km = none := hs.mp hes
              simp [her, hes, hdr', hds]
          | some es =>
              have hds : s.distance_km ≠ none := by
                intro h
                rw [hs.mpr h] at hes
                exact Option.noConfusion hes
              cases hds' : s.distance_km with
              | none => exact absurd hds' hds
              | some ds =>
                  simp [her, hes, hdr', hds']
                  by_cases he : er = es
                  · subst he
                    by_cases hd : dr = ds
                    · subst hd
                      simp [Prod.Lex.lt_iff]
                    · simp [hd, Prod.Lex.lt_iff, hd]
                  · simp [he, Prod.Lex.lt_iff, he]

lemma insertE_ok (x : Row) (l : List Row) (hx : NullConsistent x)
    (hl : ∀ r ∈ l, NullConsistent r) :
    insertE x l = Except.ok (List.orderedInsert keyLE x l) := by
  induction l with
  | nil => simp [insertE]
  | cons s t ih =>
      have hs : NullConsistent s := hl s (List.mem_cons_self s t)
      have ht : ∀ r ∈ t, NullConsistent r := fun r hr => hl r (List.mem_cons_of_mem s hr)
      by_cases h : key s < key x
      · have hlt : pyRowLt s x = some true := by
          rw [pyRowLt_eq_key hs hx]
          simp [h]
        have hns : ¬ keyLE x s := not_le.mpr h
        simp only [insertE, hlt, ih ht, List.orderedInsert, if_neg hns]
      · have hlt : pyRowLt s x = some false := by
          rw [pyRowLt_eq_key hs hx]
          simp [h]
        have hle : keyLE x s := not_lt.mp h
        simp only [insertE, hlt, List.orderedInsert, if_pos hle]

lemma sortE_ok (l : List Row) (hl : ∀ r ∈ l, NullConsistent r) :
    sortE l = Except.ok (List.insertionSort keyLE l) := by
  induction l with
  | nil => simp [sortE]
  | cons x xs ih =>
      have hx : NullConsistent x := hl x (List.mem_cons_self x xs)
      have hxs : ∀ r ∈ xs, NullConsistent r := fun r hr => hl r (List.mem_cons_of_mem x hr)
      have hsorted : ∀ r ∈ List.insertionSort keyLE xs, NullConsistent r := fun r hr =>
        hxs r ((List.perm_insertionSort keyLE xs).subset hr)
      simp only [sortE, ih hxs, List.insertionSort]
      exact insertE_ok x _ hx hsorted

/-- Inserting preserves the members picked out by any predicate that is
constant on a single key class: the inserted element only moves past
elements with a strictly smaller key, which cannot share its class. -/
lemma filter_orderedInsert_key (p : Row → Bool)
    (hp : ∀ a b, p a = true → p b = true → key a = key b) (x : Row) (l : List Row) :
    (List.orderedInsert keyLE x l).filter p
      = if p x then x :: l.filter p else l.filter p := by
  induction l with
  | nil => by_cases h : p x <;> simp [h]
  | cons s t ih =>
      by_cases hxs : keyLE x s
      · by_cases h : p x <;> simp [List.orderedInsert, if_pos hxs, List.filter_cons, h]
      · have hkey : key s < key x := not_le.mp hxs
        by_cases hps : p s = true
        · by_cases hpx : p x = true
          · exact absurd (hp s x hps hpx ▸ hkey) (lt_irrefl _)
          · simp only [List.orderedInsert, if_neg hxs, List.filter_cons, hps, ih,
              if_true, hpx, if_false]
            simp [Bool.not_eq_true] at hpx
            simp [hpx, hps]
        · simp only [List.orderedInsert, if_neg hxs, List.filter_cons, ih]
          simp [Bool.not_eq_true] at hps
          by_cases hpx : p x = true <;> simp [hpx, hps]

lemma filter_insertionSort_key (p : Row → Bool)
    (hp : ∀ a b, p a = true → p b = true → key a = key b) :
    ∀ l : List Row, (List.insertionSort keyLE l).filter p = l.filter p := by
  intro l
  induction l with
  | nil => simp
  | cons x t ih =>
      simp only [List.insertionSort, filter_orderedInsert_key p hp, List.filter_cons, ih]

/-! ### Store and loop lemmas -/

lemma getWait_setWait_same (s : WaitStore) (id : String) (r : WaitRecord) :
    get_wait_for_hospital (set_wait_for_hospital s id r) id = some r := by
  simp [get_wait_for_hospital, set_wait_for_hospital]

lemma setWait_other (s : WaitStore) (id : String) (r : WaitRecord) (k : String)
    (h : k ≠ id) : set_wait_for_hospital s id r k = s k := by
  simp [set_wait_for_hospital, h]

lemma modifyAt_getElem? (f : Row → Row) :
    ∀ (t : ℕ) (l : List Row) (j : ℕ),
      (modifyAt f t l)[j]? = if j = t then (l[j]?).map f else l[j]? := by
  intro t
  induction t with
  | zero =>
      intro l j
      cases l with
      | nil => simp [modifyAt]
      | cons r rest =>
          cases j with
          | zero => simp [modifyAt]
          | succ j => simp [modifyAt]
  | succ t ih =>
      intro l j
      cases l with
      | nil => simp [modifyAt]
      | cons r rest =>
          cases j with
          | zero => simp [modifyAt]
          | succ j => simp [modifyAt, ih rest j]

lemma modifyAt_length (f : Row → Row) :
    ∀ (t : ℕ) (l : List Row), (modifyAt f t l).length = l.length := by
  intro t
  induction t with
  | zero => intro l; cases l <;> simp [modifyAt]
  | succ t ih => intro l; cases l <;> simp [modifyAt, ih]

/-- The row part of `syntheticFill` keeps the identity and route fields and
sets `current_people` to the drawn value. -/
lemma syntheticFill_row (now : String) (x1 x2 : ℕ) (r : Row) (s : WaitStore) :
    (syntheticFill now x1 x2 r s).1
      = { r with
          current_people := some (randint RNG_MIN_PEOPLE RNG_MAX_PEOPLE x1)
          current_estimated_wait_minutes :=
            some (randint RNG_MIN_PEOPLE RNG_MAX_PEOPLE x1
              * randint RNG_PER_PERSON_MIN RNG_PER_PERSON_MAX x2)
          wait_last_updated := some now } := by
  simp only [syntheticFill, getWait_setWait_same]

/-- The store part of `syntheticFill` writes exactly one key: the row's
hospital id, with the freshly derived record. -/
lemma syntheticFill_store (now : String) (x1 x2 : ℕ) (r : Row) (s : WaitStore) :
    (syntheticFill now x1 x2 r s).2
      = set_wait_for_hospital s r.hospital_id
          { hospital_id := r.hospital_id
            people := randint RNG_MIN_PEOPLE RNG_MAX_PEOPLE x1
            per_person_minutes := randint RNG_PER_PERSON_MIN RNG_PER_PERSON_MAX x2
            estimated_wait_minutes :=
              randint RNG_MIN_PEOPLE RNG_MAX_PEOPLE x1
                * randint RNG_PER_PERSON_MIN RNG_PER_PERSON_MAX x2
            cameras := [{ camera_id := "rng", people := randint RNG_MIN_PEOPLE RNG_MAX_PEOPLE x1, status := none }]
            ts := now } := by
  simp only [syntheticFill, getWait_setWait_same]

lemma rngLoop_length (cfg : Config) (target : Option ℕ) (rng : ℕ → ℕ) (now : String) :
    ∀ (l : List Row) (idx k : ℕ) (s : WaitStore),
      (rngLoop cfg target rng now idx k l s).1.length = l.length := by
  intro l
  induction l with
  | nil => intro idx k s; simp [rngLoop]
  | cons r t ih =>
      intro idx k s
      rw [rngLoop]
      by_cases h : some idx = target ∨ r.current_people.isSome = true ∨ cfg.ENABLE_MOCK_RNG = false
      · simp only [if_pos h]
        simp [ih]
      · simp only [if_neg h]
        simp [ih]

/-- Every row of the loop's output comes from the input row at the same
position, with the hospital id and route fields unchanged. -/
lemma rngLoop_row_fields (cfg : Config) (target : Option ℕ) (rng : ℕ → ℕ) (now : String) :
    ∀ (l : List Row) (idx k : ℕ) (s : WaitStore) (j : ℕ) (row' : Row),
      ((rngLoop cfg target rng now idx k l s).1)[j]? = some row' →
        ∃ row, l[j]? = some row ∧ row'.hospital_id = row.hospital_id ∧
          row'.eta_minutes = row.eta_minutes ∧ row'.distance_km = row.distance_km := by
  intro l
  induction l with
  | nil => intro idx k s j row' h; simp [rngLoop] at h
  | cons r t ih =>
      intro idx k s j row' h
      rw [rngLoop] at h
      by_cases hc : some idx = target ∨ r.current_people.isSome = true ∨ cfg.ENABLE_MOCK_RNG = false
      · rw [if_pos hc] at h
        cases j with
        | zero =>
            simp at h
            exact ⟨r, by simp, by rw [← h], by rw [← h], by rw [← h]⟩
        | succ j =>
            simp only [List.getElem?_cons_succ] at h ⊢
            exact ih (idx + 1) k s j row' h
      · rw [if_neg hc] at h
        cases j with
        | zero =>
            simp at h
            refine ⟨r, by simp, ?_, ?_, ?_⟩ <;>
              rw [← h, syntheticFill_row]
        | succ j =>
            simp only [List.getElem?_cons_succ] at h ⊢
            exact ih (idx + 1) (k + 2) _ j row' h

/-- The RNG loop never rewrites the row at the target position. -/
lemma rngLoop_target_skip (cfg : Config) (target : Option ℕ) (rng : ℕ → ℕ) (now : String) :
    ∀ (l : List Row) (idx k : ℕ) (s : WaitStore) (j : ℕ),
      some (idx + j) = target →
        ((rngLoop cfg target rng now idx k l s).1)[j]? = l[j]? := by
  intro l
  induction l with
  | nil => intro idx k s j _; simp [rngLoop]
  | cons r t ih =>
      intro idx k s j hj
      rw [rngLoop]
      by_cases hc : some idx = target ∨ r.current_people.isSome = true ∨ cfg.ENABLE_MOCK_RNG = false
      · rw [if_pos hc]
        cases j with
        | zero => simp
        | succ j =>
            simp only [List.getElem?_cons_succ]
            refine ih (idx + 1) k s j ?_
            have harith : idx + 1 + j = idx + (j + 1) := by omega
            rw [harith]
            exact hj
      · rw [if_neg hc]
        cases j with
        | zero =>
            have : some idx = target := by simpa using hj
            exact absurd (Or.inl this) hc
        | succ j =>
            simp only [List.getElem?_cons_succ]
            refine ih (idx + 1) (k + 2) _ j ?_
            have harith : idx + 1 + j = idx + (j + 1) := by omega
            rw [harith]
            exact hj

/-- The RNG loop leaves every store key untouched that is not the hospital id
of some non-target input row. -/
lemma rngLoop_store_frame (cfg : Config) (target : Option ℕ) (rng : ℕ → ℕ) (now : String) :
    ∀ (l : List Row) (idx k : ℕ) (s : WaitStore) (key : String),
      (∀ j row, l[j]? = some row → some (idx + j) ≠ target → row.hospital_id ≠ key) →
        ((rngLoop cfg target rng now idx k l s).2) key = s key := by
  intro l
  induction l with
  | nil => intro idx k s key _; simp [rngLoop]
  | cons r t ih =>
      intro idx k s key h
      have htail : ∀ (k' : ℕ) (s' : WaitStore),
          ((rngLoop cfg target rng now (idx + 1) k' t s').2) key = s' key := by
        intro k' s'
        refine ih (idx + 1) k' s' key (fun j row hrow hne => ?_)
        refine h (j + 1) row (by simpa using hrow) ?_
        have harith : idx + (j + 1) = idx + 1 + j := by omega
        rw [harith]
        exact hne
      rw [rngLoop]
      by_cases hc : some idx = target ∨ r.current_people.isSome = true ∨ cfg.ENABLE_MOCK_RNG = false
      · rw [if_pos hc]
        exact htail k s
      · rw [if_neg hc]
        have hne0 : some idx ≠ target := fun hcon => hc (Or.inl hcon)
        have hid : r.hospital_id ≠ key :=
          h 0 r (by simp) (by simpa using hne0)
        have hs1 : (syntheticFill now (rng k) (rng (k + 1)) r s).2 key = s key := by
          rw [syntheticFill_store]
          exact setWait_other s r.hospital_id _ key (Ne.symm hid)
        calc ((rngLoop cfg target rng now (idx + 1) (k + 2) t
                (syntheticFill now (rng k) (rng (k + 1)) r s).2).2) key
            = (syntheticFill now (rng k) (rng (k + 1)) r s).2 key := htail (k + 2) _
          _ = s key := hs1

/-- Every store key the RNG loop changes ends up holding a freshly derived
record keyed by the hospital id of some input row, whose estimate is exactly
`people * per_person_minutes`. -/
lemma rngLoop_writes (cfg : Config) (target : Option ℕ) (rng : ℕ → ℕ) (now : String) :
    ∀ (l : List Row) (idx k : ℕ) (s : WaitStore) (key : String),
      ((rngLoop cfg target rng now idx k l s).2) key ≠ s key →
        ∃ rec, ((rngLoop cfg target rng now idx k l s).2) key = some rec ∧
          rec.estimated_wait_minutes = rec.people * rec.per_person_minutes ∧
          rec.hospital_id = key ∧
          ∃ (j : ℕ) (row : Row), l[j]? = some row ∧ row.hospital_id = key ∧
            some (idx + j) ≠ target := by
  intro l
  induction l with
  | nil => intro idx k s key h; simp [rngLoop] at h
  | cons r t ih =>
      intro idx k s key h
      rw [rngLoop] at h ⊢
      by_cases hc : some idx = target ∨ r.current_people.isSome = true ∨ cfg.ENABLE_MOCK_RNG = false
      · rw [if_pos hc] at h ⊢
        obtain ⟨rec, h1, h2, h3, j, row, hrow, hid, hnt⟩ := ih (idx + 1) k s key h
        refine ⟨rec, h1, h2, h3, j + 1, row,
          by simp only [List.getElem?_cons_succ]; exact hrow, hid, ?_⟩
        have harith : idx + (j + 1) = idx + 1 + j := by omega
        rw [harith]
        exact hnt
      · rw [if_neg hc] at h ⊢
        by_cases htail : ((rngLoop cfg target rng now (idx + 1) (k + 2) t
            (syntheticFill now (rng k) (rng (k + 1)) r s).2).2) key
            = (syntheticFill now (rng k) (rng (k + 1)) r s).2 key
        · have hs1ne : (syntheticFill now (rng k) (rng (k + 1)) r s).2 key ≠ s key := by
            intro hcon
            exact h (by simp only []; rw [htail, hcon])
          have hkey : key = r.hospital_id := by
            by_contra hne
            exact hs1ne (by
              rw [syntheticFill_store]
              exact setWait_other s r.hospital_id _ key hne)
          refine ⟨{ hospital_id := r.hospital_id
                    people := randint RNG_MIN_PEOPLE RNG_MAX_PEOPLE (rng k)
                    per_person_minutes :=
                      randint RNG_PER_PERSON_MIN RNG_PER_PERSON_MAX (rng (k + 1))
                    estimated_wait_minutes :=
                      randint RNG_MIN_PEOPLE RNG_MAX_PEOPLE (rng k)
                        * randint RNG_PER_PERSON_MIN RNG_PER_PERSON_MAX (rng (k + 1))
                    cameras := [{ camera_id := "rng"
                                  people := randint RNG_MIN_PEOPLE RNG_MAX_PEOPLE (rng k)
                                  status := none }]
                    ts := now }, ?_, rfl, hkey.symm, 0, r, by simp, hkey.symm,
            by simpa using fun hcon => hc (Or.inl hcon)⟩
          rw [htail, syntheticFill_store, hkey]
          simp [set_wait_for_hospital]
        · obtain ⟨rec, h1, h2, h3, j, row, hrow, hid, hnt⟩ :=
            ih (idx + 1) (k + 2) _ key htail
          refine ⟨rec, h1, h2, h3, j + 1, row,
            by simp only [List.getElem?_cons_succ]; exact hrow, hid, ?_⟩
          have harith : idx + (j + 1) = idx + 1 + j := by omega
          rw [harith]
          exact hnt

lemma key_congr {a b : Row} (he : a.eta_minutes = b.eta_minutes)
    (hd : a.distance_km = b.distance_km) : key a = key b := by
  unfold key
  rw [he, hd]

/-- The camera step rewrites occupancy fields of at most one row; every row's
hospital id, `eta_minutes` and `distance_km` survive unchanged. -/
lemma applyCamera_row_fields (cfg : Config) (ocrReady : Bool)
    (camFetch : String → Option String) (counts : String → ℕ) (now : String)
    (target : Option ℕ) (items : List Row) (j : ℕ) :
    ((applyCamera cfg ocrReady camFetch counts now target items)[j]?).map
        (fun r => (r.hospital_id, r.eta_minutes, r.distance_km))
      = (items[j]?).map (fun r => (r.hospital_id, r.eta_minutes, r.distance_km)) := by
  cases target with
  | none => rfl
  | some t =>
      simp only [applyCamera]
      by_cases hu : cfg.PRIMARY_CAMERA_URLS = []
      · simp [hu]
      · rw [if_neg hu]
        cases h : _capture_and_count cfg.PRIMARY_CAMERA_URLS ocrReady camFetch counts with
        | ok pc =>
            rw [modifyAt_getElem?]
            by_cases hj : j = t
            · rw [if_pos hj]
              cases items[j]? <;> simp
            · rw [if_neg hj]
        | error e =>
            rw [modifyAt_getElem?]
            by_cases hj : j = t
            · rw [if_pos hj]
              cases items[j]? <;> simp
            · rw [if_neg hj]

lemma pairwise_keyLE_transfer (l l' : List Row)
    (hf : ∀ (j : ℕ) (r' : Row), l'[j]? = some r' →
      ∃ r, l[j]? = some r ∧ r'.eta_minutes = r.eta_minutes ∧
        r'.distance_km = r.distance_km)
    (h : l.Pairwise keyLE) : l'.Pairwise keyLE := by
  rw [List.pairwise_iff_getElem] at h ⊢
  intro i j hi hj hij
  obtain ⟨ri, hri, hei, hdi⟩ := hf i _ (List.getElem?_eq_getElem hi)
  obtain ⟨rj, hrj, hej, hdj⟩ := hf j _ (List.getElem?_eq_getElem hj)
  obtain ⟨hli, hgi⟩ := List.getElem?_eq_some.mp hri
  obtain ⟨hlj, hgj⟩ := List.getElem?_eq_some.mp hrj
  have hk := h i j hli hlj hij
  unfold keyLE at hk ⊢
  rw [hgi, hgj] at hk
  rw [key_congr hei hdi, key_congr hej hdj]
  exact hk

/-- `nearby` unfolded on the happy path: correlation and sort succeeded. -/
lemma nearby_ok_unfold (cfg : Config) (places : List Place) (matrix : List MatrixRow)
    (store : WaitStore) (ocrReady : Bool) (camFetch : String → Option String)
    (counts : String → ℕ) (rng : ℕ → ℕ) (now : String)
    (stats : List (ℕ × Option ℚ × Option ℚ)) (sorted : List Row)
    (hok : correlate matrix = Except.ok stats)
    (hsort : sortE (enrich places stats store) = Except.ok sorted) :
    nearby cfg places matrix store ocrReady camFetch counts rng now
      = Except.ok
          ({ count := (rngLoop cfg (chooseTarget cfg sorted) rng now 0 0
                (applyCamera cfg ocrReady camFetch counts now (chooseTarget cfg sorted)
                  sorted) store).1.length,
             hospitals := (rngLoop cfg (chooseTarget cfg sorted) rng now 0 0
                (applyCamera cfg ocrReady camFetch counts now (chooseTarget cfg sorted)
                  sorted) store).1 },
           (rngLoop cfg (chooseTarget cfg sorted) rng now 0 0
              (applyCamera cfg ocrReady camFetch counts now (chooseTarget cfg sorted)
                sorted) store).2) := by
  simp only [nearby, hok, hsort]

/-! ### Claim C2 -/

/-- Concrete data refuting C2 as stated: two enriched rows, both with unknown
ETA, one with a known distance and one without — exactly what the correlation
step produces from a valid matrix row carrying `distanceMeters` but no
`duration` next to a candidate with no route row.  Sorting compares
`None < 5.0` on the distance component and raises `TypeError`. -/
def c2PlaceA : Place :=
  { id := "A", name := "Alpha Hospital", lat := 3, lng := 101, maps_url := none }

def c2PlaceB : Place :=
  { id := "B", name := "Beta Hospital", lat := 3, lng := 101, maps_url := none }

def c2RowA : Row :=
  { hospital_id := "A", hospital_name := "Alpha Hospital"
    google_maps_location_link := none, distance_km := some 5, eta_minutes := none
    current_people := none, current_estimated_wait_minutes := none
    wait_last_updated := none, camera_used := none }

def c2RowB : Row :=
  { hospital_id := "B", hospital_name := "Beta Hospital"
    google_maps_location_link := none, distance_km := none, eta_minutes := none
    current_people := none, current_estimated_wait_minutes := none
    wait_last_updated := none, camera_used := none }

/-- C2 as stated is false: on this list of enriched rows the sort does not
return any output at all — the key comparison `(True, None, None) <
(True, None, 5.0)` reaches `None < 5.0` and raises `TypeError`, aborting the
request with an error instead of a sorted list. -/
theorem c2_counterexample :
    enrich [c2PlaceA, c2PlaceB] [(0, (some 5, none))] emptyStore = [c2RowA, c2RowB] ∧
      sortE [c2RowA, c2RowB] = Except.error () := by
  constructor
  · decide
  · decide

/-- C2 (amended): restricted to enriched rows whose `eta_minutes` and
`distance_km` are null together or known together — every row list in which
no `None` is ever compared against a float — the sort succeeds, and the claim
holds in full: the output is the stable ascending reordering by
`(eta_minutes is null, eta_minutes, distance_km)` (`key`, with null rows at
`⊤`): a permutation of the input, pairwise ordered by the key, preserving the
relative input order within every class of identical
`(eta_minutes, distance_km)` pairs; and the rows of the final HTTP response
(after camera and RNG enrichment, which touch neither field) are pairwise
ordered by the same key. -/
theorem c2_sort_and_stability (cfg : Config) (places : List Place)
    (matrix : List MatrixRow) (store : WaitStore) (ocrReady : Bool)
    (camFetch : String → Option String) (counts : String → ℕ) (rng : ℕ → ℕ)
    (now : String) (stats : List (ℕ × Option ℚ × Option ℚ))
    (hok : correlate matrix = Except.ok stats)
    (hnc : ∀ r ∈ enrich places stats store, NullConsistent r) :
    sortE (enrich places stats store)
        = Except.ok (List.insertionSort keyLE (enrich places stats store)) ∧
      (List.insertionSort keyLE (enrich places stats store)).Pairwise keyLE ∧
      (enrich places stats store).Perm
        (List.insertionSort keyLE (enrich places stats store)) ∧
      (∀ e d : Option ℚ,
        (List.insertionSort keyLE (enrich places stats store)).filter
            (fun r => r.eta_minutes == e && r.distance_km == d)
          = (enrich places stats store).filter
            (fun r => r.eta_minutes == e && r.distance_km == d)) ∧
      ∃ resp store',
        nearby cfg places matrix store ocrReady camFetch counts rng now
            = Except.ok (resp, store') ∧
          resp.hospitals.Pairwise keyLE := by
  have hsort := sortE_ok _ hnc
  refine ⟨hsort, List.sorted_insertionSort keyLE _,
    (List.perm_insertionSort keyLE _).symm, ?_, ?_⟩
  · intro e d
    refine filter_insertionSort_key _ ?_ _
    intro a b ha hb
    simp only [Bool.and_eq_true, beq_iff_eq] at ha hb
    exact key_congr (ha.1.trans hb.1.symm) (ha.2.trans hb.2.symm)
  · refine ⟨_, _, nearby_ok_unfold cfg places matrix store ocrReady camFetch counts
      rng now stats _ hok hsort, ?_⟩
    apply pairwise_keyLE_transfer
      (List.insertionSort keyLE (enrich places stats store))
    · intro j r3 h3
      obtain ⟨r2, h2, hid2, he2, hd2⟩ :=
        rngLoop_row_fields cfg _ rng now _ 0 0 store j r3 h3
      have hmap := applyCamera_row_fields cfg ocrReady camFetch counts now
        (chooseTarget cfg (List.insertionSort keyLE (enrich places stats store)))
        (List.insertionSort keyLE (enrich places stats store)) j
      rw [h2] at hmap
      cases hs : (List.insertionSort keyLE (enrich places stats store))[j]? with
      | none =>
          rw [hs] at hmap
          simp at hmap
      | some r1 =>
          rw [hs] at hmap
          simp at hmap
          refine ⟨r1, rfl, ?_, ?_⟩
          · rw [he2]
            exact hmap.2.1
          · rw [hd2]
            exact hmap.2.2
    · exact List.sorted_insertionSort keyLE _

/-- Concrete data exercising `c2_sort_and_stability`: two candidates, both
with valid but field-less route rows (consistently null fields). -/
def c2wPlace0 : Place :=
  { id := "W0", name := "W Zero", lat := 3, lng := 101, maps_url := none }

def c2wPlace1 : Place :=
  { id := "W1", name := "W One", lat := 3, lng := 101, maps_url := none }

def c2wMrow0 : MatrixRow :=
  { destinationIndex := 0, statusCode := none, condition := some "ROUTE_EXISTS"
    distanceMeters := none, duration := none }

def c2wMrow1 : MatrixRow :=
  { destinationIndex := 1, statusCode := none, condition := some "ROUTE_EXISTS"
    distanceMeters := none, duration := none }

def c2wStats : List (ℕ × Option ℚ × Option ℚ) := [(1, (none, none)), (0, (none, none))]

def c2wCfg : Config :=
  { PRIMARY_CAMERA_ID := "", PRIMARY_CAMERA_URLS := [], PER_PERSON_FOR_CAMERA := 10
    ENABLE_MOCK_RNG := false }

theorem c2_witness :
    sortE (enrich [c2wPlace0, c2wPlace1] c2wStats emptyStore)
        = Except.ok
            (List.insertionSort keyLE (enrich [c2wPlace0, c2wPlace1] c2wStats emptyStore)) ∧
      (List.insertionSort keyLE
        (enrich [c2wPlace0, c2wPlace1] c2wStats emptyStore)).Pairwise keyLE ∧
      (enrich [c2wPlace0, c2wPlace1] c2wStats emptyStore).Perm
        (List.insertionSort keyLE (enrich [c2wPlace0, c2wPlace1] c2wStats emptyStore)) ∧
      ((List.insertionSort keyLE (enrich [c2wPlace0, c2wPlace1] c2wStats emptyStore)).filter
          (fun r => r.eta_minutes == (none : Option ℚ) && r.distance_km == (none : Option ℚ))
        = (enrich [c2wPlace0, c2wPlace1] c2wStats emptyStore).filter
          (fun r => r.eta_minutes == (none : Option ℚ) && r.distance_km == (none : Option ℚ))) ∧
      ∃ resp store',
        nearby c2wCfg [c2wPlace0, c2wPlace1] [c2wMrow0, c2wMrow1] emptyStore false
            (fun _ => none) (fun _ => 0) (fun _ => 0) "T" = Except.ok (resp, store') ∧
          resp.hospitals.Pairwise keyLE := by
  have h := c2_sort_and_stability c2wCfg [c2wPlace0, c2wPlace1] [c2wMrow0, c2wMrow1]
    emptyStore false (fun _ => none) (fun _ => 0) (fun _ => 0) "T" c2wStats
    (by decide) (by decide)
  exact ⟨h.1, h.2.1, h.2.2.1, h.2.2.2.1 none none, h.2.2.2.2⟩

/-! ### Claim C7 -/

lemma firstIdx_some (pid : String) :
    ∀ (l : List Row) (i : ℕ), firstIdx pid l = some i →
      (∃ row, l[i]? = some row ∧ row.hospital_id = pid) ∧
        ∀ j row, j < i → l[j]? = some row → row.hospital_id ≠ pid := by
  intro l
  induction l with
  | nil => intro i h; simp [firstIdx] at h
  | cons r t ih =>
      intro i h
      rw [firstIdx] at h
      by_cases hr : r.hospital_id = pid
      · rw [if_pos hr] at h
        cases h
        exact ⟨⟨r, by simp, hr⟩, fun j row hj _ => absurd hj (by omega)⟩
      · rw [if_neg hr] at h
        cases hf : firstIdx pid t with
        | none => rw [hf] at h; simp at h
        | some i' =>
            rw [hf] at h
            simp at h
            subst h
            obtain ⟨⟨row, hrow, hpid⟩, hbefore⟩ := ih i' hf
            refine ⟨⟨row, by simpa using hrow, hpid⟩, ?_⟩
            intro j row' hj hrow'
            cases j with
            | zero =>
                simp at hrow'
                rw [← hrow']
                exact hr
            | succ j =>
                simp only [List.getElem?_cons_succ] at hrow'
                exact hbefore j row' (by omega) hrow'

lemma firstIdx_none (pid : String) :
    ∀ l : List Row, firstIdx pid l = none → ∀ row ∈ l, row.hospital_id ≠ pid := by
  intro l
  induction l with
  | nil => intro _ row hrow; simp at hrow
  | cons r t ih =>
      intro h row hrow
      rw [firstIdx] at h
      by_cases hr : r.hospital_id = pid
      · rw [if_pos hr] at h; simp at h
      · rw [if_neg hr] at h
        rcases List.mem_cons.mp hrow with rfl | hmem
        · exact hr
        · cases hf : firstIdx pid t with
          | none => exact ih hf row hmem
          | some i => rw [hf] at h; simp at h

/-- C7 (confirmed): on a nonempty ranked list exactly one index is designated
(the selection is a function of the sorted list, applied once per request by
`nearby` right after the sort): the first row carrying the configured
`PRIMARY_CAMERA_ID` when that is nonempty and present, and index 0 — the
first hospital in final ranked order — otherwise. -/
theorem c7_live_designation (cfg : Config) (items : List Row) (h : items ≠ []) :
    ∃ t, chooseTarget cfg items = some t ∧ t < items.length ∧
      ((cfg.PRIMARY_CAMERA_ID ≠ "" ∧
          ∃ row ∈ items, row.hospital_id = cfg.PRIMARY_CAMERA_ID) →
        ∃ rowT, items[t]? = some rowT ∧ rowT.hospital_id = cfg.PRIMARY_CAMERA_ID ∧
          ∀ j row, j < t → items[j]? = some row →
            row.hospital_id ≠ cfg.PRIMARY_CAMERA_ID) ∧
      ((cfg.PRIMARY_CAMERA_ID = "" ∨
          ∀ row ∈ items, row.hospital_id ≠ cfg.PRIMARY_CAMERA_ID) → t = 0) := by
  unfold chooseTarget
  by_cases hid : cfg.PRIMARY_CAMERA_ID ≠ ""
  · rw [if_pos hid]
    cases hf : firstIdx cfg.PRIMARY_CAMERA_ID items with
    | some i =>
        obtain ⟨⟨row, hrow, hpid⟩, hbefore⟩ := firstIdx_some _ items i hf
        obtain ⟨hlt, _⟩ := List.getElem?_eq_some.mp hrow
        exact ⟨i, rfl, hlt, fun _ => ⟨row, hrow, hpid, hbefore⟩,
          fun hcon => by
            rcases hcon with hcon | hcon
            · exact absurd hcon hid
            · obtain ⟨hmem, _⟩ := List.getElem?_eq_some.mp hrow
              exact absurd hpid (hcon row (List.getElem?_mem hrow))⟩
    | none =>
        refine ⟨0, by rw [if_neg h], List.length_pos.mpr h, ?_, fun _ => rfl⟩
        intro ⟨_, row, hmem, hpid⟩
        exact absurd hpid (firstIdx_none _ items hf row hmem)
  · rw [if_neg hid]
    refine ⟨0, by rw [if_neg h], List.length_pos.mpr h, ?_, fun _ => rfl⟩
    intro ⟨hne, _⟩
    exact absurd hne hid

def c7wCfg : Config :=
  { PRIMARY_CAMERA_ID := "", PRIMARY_CAMERA_URLS := [], PER_PERSON_FOR_CAMERA := 10
    ENABLE_MOCK_RNG := false }

def c7wRow : Row :=
  { hospital_id := "H7", hospital_name := "Seven"
    google_maps_location_link := none, distance_km := none, eta_minutes := none
    current_people := none, current_estimated_wait_minutes := none
    wait_last_updated := none, camera_used := none }

theorem c7_witness :
    ∃ t, chooseTarget c7wCfg [c7wRow] = some t ∧ t < [c7wRow].length ∧
      ((c7wCfg.PRIMARY_CAMERA_ID ≠ "" ∧
          ∃ row ∈ [c7wRow], row.hospital_id = c7wCfg.PRIMARY_CAMERA_ID) →
        ∃ rowT, [c7wRow][t]? = some rowT ∧
          rowT.hospital_id = c7wCfg.PRIMARY_CAMERA_ID ∧
          ∀ j row, j < t → [c7wRow][j]? = some row →
            row.hospital_id ≠ c7wCfg.PRIMARY_CAMERA_ID) ∧
      ((c7wCfg.PRIMARY_CAMERA_ID = "" ∨
          ∀ row ∈ [c7wRow], row.hospital_id ≠ c7wCfg.PRIMARY_CAMERA_ID) → t = 0) :=
  c7_live_designation c7wCfg [c7wRow] (by decide)

/-! ### Claims C8 and C9 -/

/-- C8 (confirmed): `POST /camera-frame` fails with 400 exactly when the
hospital id or the image list is empty — storing nothing in that case — and
otherwise returns the stored record, whose `people` is the sum of the
per-image occupancy counts, whose `per_person_minutes` is the supplied value
(pydantic guarantees it lies in `[1, 60]`, the `hvalid` hypothesis) or 10
when omitted, and whose estimate is exactly `people * per_person_minutes`;
the write touches no other hospital's key. -/
theorem c8_push_frames (store : WaitStore) (counts : String → ℕ) (body : CameraPushIn)
    (now : String)
    (hvalid : ∀ p, body.per_person_minutes = some p → 1 ≤ p ∧ p ≤ 60) :
    ((push_frames store counts body now).1 = Except.error 400 ↔
        (body.hospital_id = "" ∨ body.images_b64 = [])) ∧
      ((body.hospital_id = "" ∨ body.images_b64 = []) →
        (push_frames store counts body now).2 = store) ∧
      (body.hospital_id ≠ "" → body.images_b64 ≠ [] →
        ∃ rec,
          (push_frames store counts body now).1 = Except.ok rec ∧
            (push_frames store counts body now).2 body.hospital_id = some rec ∧
            rec.people = (body.images_b64.map counts).sum ∧
            rec.per_person_minutes = body.per_person_minutes.getD 10 ∧
            rec.estimated_wait_minutes = rec.people * rec.per_person_minutes ∧
            ∀ k, k ≠ body.hospital_id →
              (push_frames store counts body now).2 k = store k) := by
  by_cases h1 : body.hospital_id = ""
  · refine ⟨?_, fun _ => ?_, fun hc _ => absurd h1 hc⟩
    · unfold push_frames
      rw [if_pos h1]
      simp [h1]
    · unfold push_frames
      rw [if_pos h1]
  · by_cases h2 : body.images_b64 = []
    · refine ⟨?_, fun _ => ?_, fun _ hc => absurd h2 hc⟩
      · unfold push_frames
        rw [if_neg h1, if_pos h2]
        simp [h2]
      · unfold push_frames
        rw [if_neg h1, if_pos h2]
    · have hper : (match body.per_person_minutes with
          | none => 10
          | some p => if p = 0 then 10 else p) = body.per_person_minutes.getD 10 := by
        cases hp : body.per_person_minutes with
        | none => rfl
        | some p =>
            have := (hvalid p hp).1
            have hp0 : ¬ p = 0 := by omega
            simp [hp0]
      have hpush : push_frames store counts body now
          = (Except.ok
              { hospital_id := body.hospital_id
                people := (body.images_b64.map counts).sum
                per_person_minutes := body.per_person_minutes.getD 10
                estimated_wait_minutes :=
                  (body.images_b64.map counts).sum * body.per_person_minutes.getD 10
                cameras := camsOf counts 0 body.images_b64
                ts := now },
              set_wait_for_hospital store body.hospital_id
                { hospital_id := body.hospital_id
                  people := (body.images_b64.map counts).sum
                  per_person_minutes := body.per_person_minutes.getD 10
                  estimated_wait_minutes :=
                    (body.images_b64.map counts).sum * body.per_person_minutes.getD 10
                  cameras := camsOf counts 0 body.images_b64
                  ts := now }) := by
        unfold push_frames
        rw [if_neg h1, if_neg h2]
        simp only [hper, getWait_setWait_same]
      refine ⟨?_, fun hc => ?_, fun _ _ => ?_⟩
      · rw [hpush]
        simp [h1, h2]
      · rcases hc with hc | hc
        · exact absurd hc h1
        · exact absurd hc h2
      · refine ⟨{ hospital_id := body.hospital_id
                  people := (body.images_b64.map counts).sum
                  per_person_minutes := body.per_person_minutes.getD 10
                  estimated_wait_minutes :=
                    (body.images_b64.map counts).sum * body.per_person_minutes.getD 10
                  cameras := camsOf counts 0 body.images_b64
                  ts := now }, ?_, ?_, rfl, rfl, rfl, ?_⟩
        · rw [hpush]
        · rw [hpush]
          exact getWait_setWait_same store body.hospital_id _
        · intro k hk
          rw [hpush]
          exact setWait_other store body.hospital_id _ k hk

def c8wBody : CameraPushIn :=
  { hospital_id := "H8", images_b64 := ["imgA", "imgB"], per_person_minutes := some 10 }

theorem c8_witness :
    ((push_frames emptyStore (fun _ => 3) c8wBody "T").1 = Except.error 400 ↔
        (c8wBody.hospital_id = "" ∨ c8wBody.images_b64 = [])) ∧
      ((c8wBody.hospital_id = "" ∨ c8wBody.images_b64 = []) →
        (push_frames emptyStore (fun _ => 3) c8wBody "T").2 = emptyStore) ∧
      (c8wBody.hospital_id ≠ "" → c8wBody.images_b64 ≠ [] →
        ∃ rec,
          (push_frames emptyStore (fun _ => 3) c8wBody "T").1 = Except.ok rec ∧
            (push_frames emptyStore (fun _ => 3) c8wBody "T").2 c8wBody.hospital_id
              = some rec ∧
            rec.people = (c8wBody.images_b64.map (fun _ => 3)).sum ∧
            rec.per_person_minutes = c8wBody.per_person_minutes.getD 10 ∧
            rec.estimated_wait_minutes = rec.people * rec.per_person_minutes ∧
            ∀ k, k ≠ c8wBody.hospital_id →
              (push_frames emptyStore (fun _ => 3) c8wBody "T").2 k = emptyStore k) :=
  c8_push_frames emptyStore (fun _ => 3) c8wBody "T"
    (fun p hp => by rw [← Option.some.inj hp]; decide)

/-- C9 (confirmed): `GET /camera-frame/{hospital_id}` returns the stored
record exactly when one exists, fails with 404 exactly when none was ever
stored for that id, and returns the store unchanged. -/
theorem c9_get_latest (store : WaitStore) (hospital_id : String) :
    ((get_latest_camera_estimate store hospital_id).1 = Except.error 404 ↔
        get_wait_for_hospital store hospital_id = none) ∧
      (∀ rec : WaitRecord,
        (get_latest_camera_estimate store hospital_id).1 = Except.ok rec ↔
          get_wait_for_hospital store hospital_id = some rec) ∧
      (get_latest_camera_estimate store hospital_id).2 = store := by
  unfold get_latest_camera_estimate
  cases h : get_wait_for_hospital store hospital_id <;> simp [h]

theorem c9_witness :
    ((get_latest_camera_estimate emptyStore "UNKNOWN").1 = Except.error 404 ↔
        get_wait_for_hospital emptyStore "UNKNOWN" = none) ∧
      (∀ rec : WaitRecord,
        (get_latest_camera_estimate emptyStore "UNKNOWN").1 = Except.ok rec ↔
          get_wait_for_hospital emptyStore "UNKNOWN" = some rec) ∧
      (get_latest_camera_estimate emptyStore "UNKNOWN").2 = emptyStore :=
  c9_get_latest emptyStore "UNKNOWN"

/-! ### Claim C5 -/

/-- C5 (confirmed): every record the wait-time store receives — from the
synthetic fill inside `POST /nearby-hospitals` (the only store write in that
handler) or from `POST /camera-frame` — carries
`estimated_wait_minutes = people * per_person_minutes` computed at the time
of the write; a changed key always holds such a record. -/
theorem c5_estimate_invariant :
    (∀ (cfg : Config) (places : List Place) (matrix : List MatrixRow)
        (store : WaitStore) (ocrReady : Bool) (camFetch : String → Option String)
        (counts : String → ℕ) (rng : ℕ → ℕ) (now : String)
        (resp : NearbyResponse) (store' : WaitStore),
        nearby cfg places matrix store ocrReady camFetch counts rng now
            = Except.ok (resp, store') →
          ∀ k, store' k ≠ store k →
            ∃ rec, store' k = some rec ∧
              rec.estimated_wait_minutes = rec.people * rec.per_person_minutes) ∧
      (∀ (store : WaitStore) (counts : String → ℕ) (body : CameraPushIn)
          (now : String) (k : String),
          (push_frames store counts body now).2 k ≠ store k →
            ∃ rec, (push_frames store counts body now).2 k = some rec ∧
              rec.estimated_wait_minutes = rec.people * rec.per_person_minutes) := by
  constructor
  · intro cfg places matrix store ocrReady camFetch counts rng now resp store' h k hne
    cases hc : correlate matrix with
    | error e =>
        have hbad : nearby cfg places matrix store ocrReady camFetch counts rng now
            = Except.error e := by
          simp only [nearby, hc]
        rw [hbad] at h
        exact absurd h (by simp)
    | ok stats =>
        cases hs : sortE (enrich places stats store) with
        | error e =>
            have hbad : nearby cfg places matrix store ocrReady camFetch counts rng now
                = Except.error e := by
              simp only [nearby, hc, hs]
            rw [hbad] at h
            exact absurd h (by simp)
        | ok sorted =>
            have hok2 := nearby_ok_unfold cfg places matrix store ocrReady camFetch
              counts rng now stats sorted hc hs
            have hpair := Except.ok.inj (h.symm.trans hok2)
            have hstore : store'
                = (rngLoop cfg (chooseTarget cfg sorted) rng now 0 0
                    (applyCamera cfg ocrReady camFetch counts now
                      (chooseTarget cfg sorted) sorted) store).2 :=
              congrArg Prod.snd hpair
            rw [hstore] at hne ⊢
            obtain ⟨rec, ha, hb, _, _⟩ :=
              rngLoop_writes cfg (chooseTarget cfg sorted) rng now _ 0 0 store k hne
            exact ⟨rec, ha, hb⟩
  · intro store counts body now k hne
    by_cases h1 : body.hospital_id = ""
    · have : (push_frames store counts body now).2 = store := by
        unfold push_frames
        rw [if_pos h1]
      exact absurd (congrFun this k) hne
    · by_cases h2 : body.images_b64 = []
      · have : (push_frames store counts body now).2 = store := by
          unfold push_frames
          rw [if_neg h1, if_pos h2]
        exact absurd (congrFun this k) hne
      · have hpush : (push_frames store counts body now).2
            = set_wait_for_hospital store body.hospital_id
                { hospital_id := body.hospital_id
                  people := (body.images_b64.map counts).sum
                  per_person_minutes :=
                    (match body.per_person_minutes with
                     | none => 10
                     | some p => if p = 0 then 10 else p)
                  estimated_wait_minutes :=
                    (body.images_b64.map counts).sum *
                      (match body.per_person_minutes with
                       | none => 10
                       | some p => if p = 0 then 10 else p)
                  cameras := camsOf counts 0 body.images_b64
                  ts := now } := by
          unfold push_frames
          rw [if_neg h1, if_neg h2]
          simp only [getWait_setWait_same]
        rw [hpush] at hne ⊢
        by_cases hk : k = body.hospital_id
        · subst hk
          exact ⟨_, getWait_setWait_same store body.hospital_id _, rfl⟩
        · exact absurd (setWait_other store body.hospital_id _ k hk) hne

def c5wPlace0 : Place :=
  { id := "C50", name := "C Fifty", lat := 3, lng := 101, maps_url := none }

def c5wPlace1 : Place :=
  { id := "C51", name := "C FiftyOne", lat := 3, lng := 101, maps_url := none }

def c5wCfg : Config :=
  { PRIMARY_CAMERA_ID := "", PRIMARY_CAMERA_URLS := [], PER_PERSON_FOR_CAMERA := 10
    ENABLE_MOCK_RNG := true }

def c5wRow0 : Row :=
  { hospital_id := "C50", hospital_name := "C Fifty"
    google_maps_location_link := none, distance_km := none, eta_minutes := none
    current_people := none, current_estimated_wait_minutes := none
    wait_last_updated := none, camera_used := none }

def c5wRow1 : Row :=
  { hospital_id := "C51", hospital_name := "C FiftyOne"
    google_maps_location_link := none, distance_km := none, eta_minutes := none
    current_people := none, current_estimated_wait_minutes := none
    wait_last_updated := none, camera_used := none }

def c5wBody : CameraPushIn :=
  { hospital_id := "C5P", images_b64 := ["a"], per_person_minutes := some 12 }

theorem c5_witness :
    (∃ (resp : NearbyResponse) (store' : WaitStore),
      nearby c5wCfg [c5wPlace0, c5wPlace1] [] emptyStore false (fun _ => none)
          (fun _ => 0) (fun _ => 0) "T" = Except.ok (resp, store') ∧
        store' "C51" ≠ emptyStore "C51" ∧
        ∃ rec, store' "C51" = some rec ∧
          rec.estimated_wait_minutes = rec.people * rec.per_person_minutes) ∧
      ((push_frames emptyStore (fun _ => 2) c5wBody "T").2 "C5P" ≠ emptyStore "C5P" ∧
        ∃ rec, (push_frames emptyStore (fun _ => 2) c5wBody "T").2 "C5P" = some rec ∧
          rec.estimated_wait_minutes = rec.people * rec.per_person_minutes) := by
  constructor
  · have hok := nearby_ok_unfold c5wCfg [c5wPlace0, c5wPlace1] [] emptyStore false
      (fun _ => none) (fun _ => 0) (fun _ => 0) "T" [] [c5wRow0, c5wRow1]
      (by decide) (by decide)
    refine ⟨_, _, hok, by decide, ?_⟩
    exact c5_estimate_invariant.1 c5wCfg [c5wPlace0, c5wPlace1] [] emptyStore false
      (fun _ => none) (fun _ => 0) (fun _ => 0) "T" _ _ hok "C51" (by decide)
  · exact ⟨by decide,
      c5_estimate_invariant.2 emptyStore (fun _ => 2) c5wBody "T" "C5P" (by decide)⟩

/-! ### Claim C6 -/

lemma randint_mem (lo hi x : ℕ) (h : lo ≤ hi) :
    lo ≤ randint lo hi x ∧ randint lo hi x ≤ hi := by
  unfold randint
  have hm : x % (hi + 1 - lo) < hi + 1 - lo := Nat.mod_lt _ (by omega)
  omega

/-- C6 (confirmed): a hospital with no occupancy attached (no cache entry)
that is not the designated live hospital is, when the mock RNG is enabled,
resolved by exactly one synthetic fill: the drawn `people` lies in the
inclusive range `[RNG_MIN_PEOPLE, RNG_MAX_PEOPLE]` and the drawn
`per_person_minutes` in `[RNG_PER_PERSON_MIN, RNG_PER_PERSON_MAX]`; the
derived record is written under that hospital's id only, every other cache
key is left unchanged, and the response row receives the drawn figure. -/
theorem c6_synthetic_fill (cfg : Config) (target : Option ℕ) (rng : ℕ → ℕ)
    (now : String) (idx k : ℕ) (r : Row) (t : List Row) (s : WaitStore)
    (henabled : cfg.ENABLE_MOCK_RNG = true)
    (hnottarget : some idx ≠ target)
    (hnocache : r.current_people = none) :
    rngLoop cfg target rng now idx k (r :: t) s
        = ((syntheticFill now (rng k) (rng (k + 1)) r s).1
            :: (rngLoop cfg target rng now (idx + 1) (k + 2) t
                (syntheticFill now (rng k) (rng (k + 1)) r s).2).1,
           (rngLoop cfg target rng now (idx + 1) (k + 2) t
              (syntheticFill now (rng k) (rng (k + 1)) r s).2).2) ∧
      RNG_MIN_PEOPLE ≤ randint RNG_MIN_PEOPLE RNG_MAX_PEOPLE (rng k) ∧
      randint RNG_MIN_PEOPLE RNG_MAX_PEOPLE (rng k) ≤ RNG_MAX_PEOPLE ∧
      RNG_PER_PERSON_MIN ≤ randint RNG_PER_PERSON_MIN RNG_PER_PERSON_MAX (rng (k + 1)) ∧
      randint RNG_PER_PERSON_MIN RNG_PER_PERSON_MAX (rng (k + 1)) ≤ RNG_PER_PERSON_MAX ∧
      (syntheticFill now (rng k) (rng (k + 1)) r s).2 r.hospital_id
        = some { hospital_id := r.hospital_id
                 people := randint RNG_MIN_PEOPLE RNG_MAX_PEOPLE (rng k)
                 per_person_minutes :=
                   randint RNG_PER_PERSON_MIN RNG_PER_PERSON_MAX (rng (k + 1))
                 estimated_wait_minutes :=
                   randint RNG_MIN_PEOPLE RNG_MAX_PEOPLE (rng k)
                     * randint RNG_PER_PERSON_MIN RNG_PER_PERSON_MAX (rng (k + 1))
                 cameras := [{ camera_id := "rng"
                               people := randint RNG_MIN_PEOPLE RNG_MAX_PEOPLE (rng k)
                               status := none }]
                 ts := now } ∧
      (∀ k', k' ≠ r.hospital_id →
        (syntheticFill now (rng k) (rng (k + 1)) r s).2 k' = s k') ∧
      (syntheticFill now (rng k) (rng (k + 1)) r s).1.current_people
        = some (randint RNG_MIN_PEOPLE RNG_MAX_PEOPLE (rng k)) := by
  have hcond : ¬(some idx = target ∨ r.current_people.isSome = true ∨
      cfg.ENABLE_MOCK_RNG = false) := by
    rintro (h | h | h)
    · exact hnottarget h
    · rw [hnocache] at h
      exact absurd h (by simp)
    · rw [henabled] at h
      exact absurd h (by simp)
  refine ⟨by rw [rngLoop, if_neg hcond], ?_, ?_, ?_, ?_, ?_, ?_, ?_⟩
  · exact (randint_mem _ _ _ (by decide)).1
  · exact (randint_mem _ _ _ (by decide)).2
  · exact (randint_mem _ _ _ (by decide)).1
  · exact (randint_mem _ _ _ (by decide)).2
  · rw [syntheticFill_store]
    simp [set_wait_for_hospital]
  · intro k' hk'
    rw [syntheticFill_store]
    exact setWait_other s r.hospital_id _ k' hk'
  · rw [syntheticFill_row]

def c6wRow : Row :=
  { hospital_id := "C6", hospital_name := "Six"
    google_maps_location_link := none, distance_km := none, eta_minutes := none
    current_people := none, current_estimated_wait_minutes := none
    wait_last_updated := none, camera_used := none }

def c6wCfg : Config :=
  { PRIMARY_CAMERA_ID := "", PRIMARY_CAMERA_URLS := [], PER_PERSON_FOR_CAMERA := 10
    ENABLE_MOCK_RNG := true }

theorem c6_witness :
    rngLoop c6wCfg (some 5) (fun _ => 7) "T" 0 0 [c6wRow] emptyStore
        = ((syntheticFill "T" 7 7 c6wRow emptyStore).1
            :: (rngLoop c6wCfg (some 5) (fun _ => 7) "T" 1 2 []
                (syntheticFill "T" 7 7 c6wRow emptyStore).2).1,
           (rngLoop c6wCfg (some 5) (fun _ => 7) "T" 1 2 []
              (syntheticFill "T" 7 7 c6wRow emptyStore).2).2) ∧
      RNG_MIN_PEOPLE ≤ randint RNG_MIN_PEOPLE RNG_MAX_PEOPLE 7 ∧
      randint RNG_MIN_PEOPLE RNG_MAX_PEOPLE 7 ≤ RNG_MAX_PEOPLE ∧
      RNG_PER_PERSON_MIN ≤ randint RNG_PER_PERSON_MIN RNG_PER_PERSON_MAX 7 ∧
      randint RNG_PER_PERSON_MIN RNG_PER_PERSON_MAX 7 ≤ RNG_PER_PERSON_MAX ∧
      (syntheticFill "T" 7 7 c6wRow emptyStore).2 c6wRow.hospital_id
        = some { hospital_id := c6wRow.hospital_id
                 people := randint RNG_MIN_PEOPLE RNG_MAX_PEOPLE 7
                 per_person_minutes := randint RNG_PER_PERSON_MIN RNG_PER_PERSON_MAX 7
                 estimated_wait_minutes :=
                   randint RNG_MIN_PEOPLE RNG_MAX_PEOPLE 7
                     * randint RNG_PER_PERSON_MIN RNG_PER_PERSON_MAX 7
                 cameras := [{ camera_id := "rng"
                               people := randint RNG_MIN_PEOPLE RNG_MAX_PEOPLE 7
                               status := none }]
                 ts := "T" } ∧
      (∀ k', k' ≠ c6wRow.hospital_id →
        (syntheticFill "T" 7 7 c6wRow emptyStore).2 k' = emptyStore k') ∧
      (syntheticFill "T" 7 7 c6wRow emptyStore).1.current_people
        = some (randint RNG_MIN_PEOPLE RNG_MAX_PEOPLE 7) :=
  c6_synthetic_fill c6wCfg (some 5) (fun _ => 7) "T" 0 0 c6wRow [] emptyStore
    rfl (by decide) rfl

/-! ### Claim C3 -/

/-- Concrete data refuting C3 as stated: camera configured, capture succeeds
(one frame, three people counted), mock RNG off, store empty. -/
def c3Cfg : Config :=
  { PRIMARY_CAMERA_ID := "", PRIMARY_CAMERA_URLS := ["u"], PER_PERSON_FOR_CAMERA := 10
    ENABLE_MOCK_RNG := false }

def c3Place : Place :=
  { id := "H3", name := "Hospital Three", lat := 3, lng := 101, maps_url := none }

/-- The response row after the successful live capture: people 3, estimate
3 × 10, stamped now. -/
def c3LiveRow : Row :=
  { hospital_id := "H3", hospital_name := "Hospital Three"
    google_maps_location_link := none, distance_km := none, eta_minutes := none
    current_people := some 3, current_estimated_wait_minutes := some 30
    wait_last_updated := some "T", camera_used := some true }

/-- C3 as stated is false: the live capture for the designated hospital
succeeds — the response row carries `people = 3`,
`estimated = 3 × PER_PERSON_FOR_CAMERA = 30` and the fresh timestamp — yet
the handler never calls `set_wait_for_hospital` in that path: the request
ends with the store exactly as it began (here: empty), so a later get for
`"H3"` finds nothing instead of the live-capture record. -/
theorem c3_counterexample :
    nearby c3Cfg [c3Place] [] emptyStore true (fun _ => some "img") (fun _ => 3)
        (fun _ => 0) "T"
      = Except.ok ({ count := 1, hospitals := [c3LiveRow] }, emptyStore) ∧
      get_wait_for_hospital emptyStore "H3" = none :=
  ⟨rfl, rfl⟩

/-- C3 (amended): when the designated live hospital has camera sources
configured and the capture succeeds, the summed occupancy
(`people = Σ per-camera counts`, `estimated = people ×
PER_PERSON_FOR_CAMERA`, stamped now) is written into that hospital's
*response row only*.  It is **not** written through to the WaitTimeStore:
the final store differs from the incoming store only at hospital ids of
non-target rows (RNG fills), so when no other row shares the live hospital's
id, a later get for it returns whatever was cached before the request —
never the live-capture record. -/
theorem c3_live_not_persisted (cfg : Config) (places : List Place)
    (matrix : List MatrixRow) (store : WaitStore)
    (camFetch : String → Option String) (counts : String → ℕ) (rng : ℕ → ℕ)
    (now : String) (stats : List (ℕ × Option ℚ × Option ℚ)) (sorted : List Row)
    (t : ℕ) (rowT : Row)
    (hok : correlate matrix = Except.ok stats)
    (hsort : sortE (enrich places stats store) = Except.ok sorted)
    (hurls : cfg.PRIMARY_CAMERA_URLS ≠ [])
    (htarget : chooseTarget cfg sorted = some t)
    (hrowT : sorted[t]? = some rowT) :
    ∃ resp store',
      nearby cfg places matrix store true camFetch counts rng now
          = Except.ok (resp, store') ∧
        resp.hospitals[t]?
          = some { rowT with
              current_people :=
                some (captureGo camFetch counts 0 cfg.PRIMARY_CAMERA_URLS).1
              current_estimated_wait_minutes :=
                some ((captureGo camFetch counts 0 cfg.PRIMARY_CAMERA_URLS).1
                  * cfg.PER_PERSON_FOR_CAMERA)
              wait_last_updated := some now
              camera_used := some true } ∧
        (∀ key, store' key ≠ store key →
          ∃ j row, j ≠ t ∧ sorted[j]? = some row ∧ row.hospital_id = key) ∧
        ((∀ j row, j ≠ t → sorted[j]? = some row →
            row.hospital_id ≠ rowT.hospital_id) →
          store' rowT.hospital_id = store rowT.hospital_id) := by
  have hok2 := nearby_ok_unfold cfg places matrix store true camFetch counts rng now
    stats sorted hok hsort
  rw [htarget] at hok2
  have hcap : _capture_and_count cfg.PRIMARY_CAMERA_URLS true camFetch counts
      = Except.ok (captureGo camFetch counts 0 cfg.PRIMARY_CAMERA_URLS) := by
    unfold _capture_and_count
    rw [if_neg hurls, if_pos rfl]
  have hitems2 : applyCamera cfg true camFetch counts now (some t) sorted
      = modifyAt
          (fun r =>
            { r with
              current_people :=
                some (captureGo camFetch counts 0 cfg.PRIMARY_CAMERA_URLS).1
              current_estimated_wait_minutes :=
                some ((captureGo camFetch counts 0 cfg.PRIMARY_CAMERA_URLS).1
                  * cfg.PER_PERSON_FOR_CAMERA)
              wait_last_updated := some now
              camera_used := some true })
          t sorted := by
    simp only [applyCamera]
    rw [if_neg hurls, hcap]
  refine ⟨_, _, hok2, ?_, ?_, ?_⟩
  · have hskip := rngLoop_target_skip cfg (some t) rng now
      (applyCamera cfg true camFetch counts now (some t) sorted) 0 0 store t
      (by simp)
    rw [hskip, hitems2, modifyAt_getElem?, if_pos rfl, hrowT]
    rfl
  · intro key hne
    obtain ⟨rec, _, _, _, j, row, hrow, hid, hnt⟩ :=
      rngLoop_writes cfg (some t) rng now _ 0 0 store key hne
    have hjt : j ≠ t := by
      intro hcon
      exact hnt (by simp [hcon])
    rw [hitems2, modifyAt_getElem?, if_neg hjt] at hrow
    exact ⟨j, row, hjt, hrow, hid⟩
  · intro huniq
    refine rngLoop_store_frame cfg (some t) rng now _ 0 0 store rowT.hospital_id ?_
    intro j row hrow hne
    have hjt : j ≠ t := by
      intro hcon
      exact hne (by simp [hcon])
    rw [hitems2, modifyAt_getElem?, if_neg hjt] at hrow
    exact huniq j row hjt hrow

def c3wPlace0 : Place :=
  { id := "C30", name := "C Thirty", lat := 3, lng := 101, maps_url := none }

def c3wPlace1 : Place :=
  { id := "C31", name := "C ThirtyOne", lat := 3, lng := 101, maps_url := none }

def c3wCfg : Config :=
  { PRIMARY_CAMERA_ID := "", PRIMARY_CAMERA_URLS := ["u"], PER_PERSON_FOR_CAMERA := 10
    ENABLE_MOCK_RNG := true }

def c3wRow0 : Row :=
  { hospital_id := "C30", hospital_name := "C Thirty"
    google_maps_location_link := none, distance_km := none, eta_minutes := none
    current_people := none, current_estimated_wait_minutes := none
    wait_last_updated := none, camera_used := none }

def c3wRow1 : Row :=
  { hospital_id := "C31", hospital_name := "C ThirtyOne"
    google_maps_location_link := none, distance_km := none, eta_minutes := none
    current_people := none, current_estimated_wait_minutes := none
    wait_last_updated := none, camera_used := none }

theorem c3_witness :
    ∃ resp store',
      nearby c3wCfg [c3wPlace0, c3wPlace1] [] emptyStore true (fun _ => some "img")
          (fun _ => 4) (fun _ => 0) "T" = Except.ok (resp, store') ∧
        resp.hospitals[0]?
          = some { c3wRow0 with
              current_people :=
                some (captureGo (fun _ => some "img") (fun _ => 4) 0
                  c3wCfg.PRIMARY_CAMERA_URLS).1
              current_estimated_wait_minutes :=
                some ((captureGo (fun _ => some "img") (fun _ => 4) 0
                  c3wCfg.PRIMARY_CAMERA_URLS).1 * c3wCfg.PER_PERSON_FOR_CAMERA)
              wait_last_updated := some "T"
              camera_used := some true } ∧
        (∀ key, store' key ≠ emptyStore key →
          ∃ j row, j ≠ 0 ∧ [c3wRow0, c3wRow1][j]? = some row ∧
            row.hospital_id = key) ∧
        ((∀ j row, j ≠ 0 → [c3wRow0, c3wRow1][j]? = some row →
            row.hospital_id ≠ c3wRow0.hospital_id) →
          store' c3wRow0.hospital_id = emptyStore c3wRow0.hospital_id) :=
  c3_live_not_persisted c3wCfg [c3wPlace0, c3wPlace1] [] emptyStore
    (fun _ => some "img") (fun _ => 4) (fun _ => 0) "T" [] [c3wRow0, c3wRow1] 0
    c3wRow0 (by decide) (by decide) (by decide) (by decide) (by decide)

/-! ### Claim C4 -/

/-- Concrete data refuting C4 as stated: camera configured but the occupancy
engine unavailable (`is_openai_ready` false), two hospitals, empty cache,
mock RNG enabled. -/
def c4Cfg : Config :=
  { PRIMARY_CAMERA_ID := "", PRIMARY_CAMERA_URLS := ["u"], PER_PERSON_FOR_CAMERA := 10
    ENABLE_MOCK_RNG := true }

def c4Place0 : Place :=
  { id := "H40", name := "Hospital Forty", lat := 3, lng := 101, maps_url := none }

def c4Place1 : Place :=
  { id := "H41", name := "Hospital FortyOne", lat := 3, lng := 101, maps_url := none }

/-- The target row after the failed capture: annotated, no occupancy. -/
def c4FailRow0 : Row :=
  { hospital_id := "H40", hospital_name := "Hospital Forty"
    google_maps_location_link := none, distance_km := none, eta_minutes := none
    current_people := none, current_estimated_wait_minutes := none
    wait_last_updated := none, camera_used := some false }

/-- The other row after its synthetic fill (`randint` over the zero stream:
people `20 + 0 % 21 = 20`, per-person `8`, estimate `160`). -/
def c4FilledRow1 : Row :=
  { hospital_id := "H41", hospital_name := "Hospital FortyOne"
    google_maps_location_link := none, distance_km := none, eta_minutes := none
    current_people := some 20, current_estimated_wait_minutes := some 160
    wait_last_updated := some "T", camera_used := none }

def c4Rec1 : WaitRecord :=
  { hospital_id := "H41", people := 20, per_person_minutes := 8
    estimated_wait_minutes := 160
    cameras := [{ camera_id := "rng", people := 20, status := none }], ts := "T" }

/-- C4 as stated is false: the live-capture attempt fails (engine
unavailable), the target hospital has no cached record and synthetic
fallback is enabled — yet the target receives **no** synthetic occupancy
value (its row keeps `current_people = None`, only annotated
`camera_used = false`), because the RNG loop skips `idx == target_idx`
unconditionally.  The failure does not abort the request, and the other
hospital is filled normally. -/
theorem c4_counterexample :
    nearby c4Cfg [c4Place0, c4Place1] [] emptyStore false (fun _ => none)
        (fun _ => 0) (fun _ => 0) "T"
      = Except.ok ({ count := 2, hospitals := [c4FailRow0, c4FilledRow1] },
          set_wait_for_hospital emptyStore "H41" c4Rec1) ∧
      c4Cfg.ENABLE_MOCK_RNG = true ∧
      emptyStore "H40" = none ∧
      c4FailRow0.current_people = none ∧
      c4FilledRow1.current_people = some 20 :=
  ⟨rfl, rfl, rfl, rfl, rfl⟩

/-- C4 (amended): a failed live-capture attempt (occupancy engine
unavailable) never aborts the request and leaves every other hospital's
resolution untouched — but the failed target does **not** fall through to
the synthetic step: its row is merely annotated (`camera_used = false`) and
keeps whatever the cache attached during enrichment (nothing, when it had no
cached record); the RNG loop excludes the target unconditionally, and every
store key the request changes belongs to some other row. -/
theorem c4_capture_failure_isolated (cfg : Config) (places : List Place)
    (matrix : List MatrixRow) (store : WaitStore)
    (camFetch : String → Option String) (counts : String → ℕ) (rng : ℕ → ℕ)
    (now : String) (stats : List (ℕ × Option ℚ × Option ℚ)) (sorted : List Row)
    (t : ℕ) (rowT : Row)
    (hok : correlate matrix = Except.ok stats)
    (hsort : sortE (enrich places stats store) = Except.ok sorted)
    (hurls : cfg.PRIMARY_CAMERA_URLS ≠ [])
    (htarget : chooseTarget cfg sorted = some t)
    (hrowT : sorted[t]? = some rowT) :
    ∃ resp store',
      nearby cfg places matrix store false camFetch counts rng now
          = Except.ok (resp, store') ∧
        resp.hospitals[t]? = some { rowT with camera_used := some false } ∧
        (rowT.current_people = none →
          ∃ rowT', resp.hospitals[t]? = some rowT' ∧ rowT'.current_people = none) ∧
        (∀ key, store' key ≠ store key →
          ∃ j row, j ≠ t ∧ sorted[j]? = some row ∧ row.hospital_id = key) ∧
        resp.hospitals
          = (rngLoop cfg (some t) rng now 0 0
              (modifyAt (fun r => { r with camera_used := some false }) t sorted)
              store).1 := by
  have hok2 := nearby_ok_unfold cfg places matrix store false camFetch counts rng now
    stats sorted hok hsort
  rw [htarget] at hok2
  have hcap : _capture_and_count cfg.PRIMARY_CAMERA_URLS false camFetch counts
      = Except.error "OpenAI vision not configured" := by
    unfold _capture_and_count
    rw [if_neg hurls]
    rfl
  have hitems2 : applyCamera cfg false camFetch counts now (some t) sorted
      = modifyAt (fun r => { r with camera_used := some false }) t sorted := by
    simp only [applyCamera]
    rw [if_neg hurls, hcap]
  refine ⟨_, _, hok2, ?_, ?_, ?_, ?_⟩
  · have hskip := rngLoop_target_skip cfg (some t) rng now
      (applyCamera cfg false camFetch counts now (some t) sorted) 0 0 store t
      (by simp)
    rw [hskip, hitems2, modifyAt_getElem?, if_pos rfl, hrowT]
    rfl
  · intro hnone
    have hskip := rngLoop_target_skip cfg (some t) rng now
      (applyCamera cfg false camFetch counts now (some t) sorted) 0 0 store t
      (by simp)
    refine ⟨{ rowT with camera_used := some false }, ?_, by simpa using hnone⟩
    rw [hskip, hitems2, modifyAt_getElem?, if_pos rfl, hrowT]
    rfl
  · intro key hne
    obtain ⟨rec, _, _, _, j, row, hrow, hid, hnt⟩ :=
      rngLoop_writes cfg (some t) rng now _ 0 0 store key hne
    have hjt : j ≠ t := by
      intro hcon
      exact hnt (by simp [hcon])
    rw [hitems2, modifyAt_getElem?, if_neg hjt] at hrow
    exact ⟨j, row, hjt, hrow, hid⟩
  · rw [hitems2]

def c4wPlace0 : Place :=
  { id := "C40", name := "C Forty", lat := 3, lng := 101, maps_url := none }

def c4wPlace1 : Place :=
  { id := "C41", name := "C FortyOne", lat := 3, lng := 101, maps_url := none }

def c4wRow0 : Row :=
  { hospital_id := "C40", hospital_name := "C Forty"
    google_maps_location_link := none, distance_km := none, eta_minutes := none
    current_people := none, current_estimated_wait_minutes := none
    wait_last_updated := none, camera_used := none }

def c4wRow1 : Row :=
  { hospital_id := "C41", hospital_name := "C FortyOne"
    google_maps_location_link := none, distance_km := none, eta_minutes := none
    current_people := none, current_estimated_wait_minutes := none
    wait_last_updated := none, camera_used := none }

theorem c4_witness :
    ∃ resp store',
      nearby c4Cfg [c4wPlace0, c4wPlace1] [] emptyStore false (fun _ => none)
          (fun _ => 0) (fun _ => 0) "T" = Except.ok (resp, store') ∧
        resp.hospitals[0]? = some { c4wRow0 with camera_used := some false } ∧
        (c4wRow0.current_people = none →
          ∃ rowT', resp.hospitals[0]? = some rowT' ∧ rowT'.current_people = none) ∧
        (∀ key, store' key ≠ emptyStore key →
          ∃ j row, j ≠ 0 ∧ [c4wRow0, c4wRow1][j]? = some row ∧
            row.hospital_id = key) ∧
        resp.hospitals
          = (rngLoop c4Cfg (some 0) (fun _ => 0) "T" 0 0
              (modifyAt (fun r => { r with camera_used := some false }) 0
                [c4wRow0, c4wRow1])
              emptyStore).1 :=
  c4_capture_failure_isolated c4Cfg [c4wPlace0, c4wPlace1] [] emptyStore
    (fun _ => none) (fun _ => 0) (fun _ => 0) "T" [] [c4wRow0, c4wRow1] 0 c4wRow0
    (by decide) (by decide) (by decide) (by decide) (by decide)

/-! ### Claim C10 -/

lemma insertE_perm (x : Row) :
    ∀ (l l' : List Row), insertE x l = Except.ok l' → l'.Perm (x :: l) := by
  intro l
  induction l with
  | nil =>
      intro l' h
      simp [insertE] at h
      subst h
      rfl
  | cons s t ih =>
      intro l' h
      rw [insertE] at h
      cases hp : pyRowLt s x with
      | none => rw [hp] at h; exact absurd h (by simp)
      | some b =>
          rw [hp] at h
          cases b with
          | true =>
              cases hi : insertE x t with
              | error e => rw [hi] at h; exact absurd h (by simp)
              | ok t' =>
                  rw [hi] at h
                  simp at h
                  subst h
                  exact ((ih t' hi).cons s).trans (List.Perm.swap x s t)
          | false =>
              simp at h
              subst h
              rfl

lemma sortE_perm : ∀ (l l' : List Row), sortE l = Except.ok l' → l'.Perm l := by
  intro l
  induction l with
  | nil =>
      intro l' h
      simp [sortE] at h
      subst h
      rfl
  | cons x t ih =>
      intro l' h
      rw [sortE] at h
      cases hs : sortE t with
      | error e => rw [hs] at h; exact absurd h (by simp)
      | ok t' =>
          rw [hs] at h
          exact (insertE_perm x t' l' h).trans ((ih t' hs).cons x)

lemma isPrefixOf_self_append : ∀ (l t : List Char), List.isPrefixOf l (l ++ t) = true := by
  intro l t
  induction l with
  | nil => simp [List.isPrefixOf]
  | cons c l ih => simp [List.isPrefixOf, ih]

/-- Every member of the enriched list carries the normalized id of one of the
candidates. -/
lemma enrich_mem_id (places : List Place) (stats : List (ℕ × Option ℚ × Option ℚ))
    (store : WaitStore) (r : Row) (hr : r ∈ enrich places stats store) :
    ∃ p ∈ places, r.hospital_id = hospitalIdOf p := by
  obtain ⟨n, hn⟩ := List.mem_iff_getElem?.mp hr
  unfold enrich at hn
  rw [enrichList_getElem? store stats places 0 n] at hn
  cases hp : places[n]? with
  | none => rw [hp] at hn; exact absurd hn (by simp)
  | some p =>
      rw [hp] at hn
      simp at hn
      exact ⟨p, List.getElem?_mem hp, by rw [← hn, enrichRow_hospital_id]⟩

/-- `split("/", 1)[1]` of a string of the form `"places/" ++ x` is exactly
`x`: the strip removes one leading marker, character for character. -/
lemma hospitalIdOf_strip (p : Place) (x : String)
    (h : (if p.id = "" then p.name else p.id) = "places/" ++ x) :
    hospitalIdOf p = x := by
  simp only [hospitalIdOf]
  rw [h]
  have hpre : startsWithPlaces ("places/" ++ x) = true := by
    unfold startsWithPlaces
    rw [String.data_append]
    exact isPrefixOf_self_append _ _
  rw [if_pos hpre]
  unfold dropPlaces
  rw [String.data_append]
  rw [show (7 : ℕ) = ("places/".data).length from rfl, List.drop_left]

/-- Concrete data refuting the "never carries the prefix" half of C10: a
candidate id with a doubled marker. -/
def c10Place : Place :=
  { id := "places/places/A", name := "P Hospital", lat := 3, lng := 101
    maps_url := none }

/-- C10 as stated is false: the strip removes exactly one `"places/"` marker,
so the candidate id `"places/places/A"` yields the response and cache key
`"places/A"`, which still starts with `"places/"`.  (The normalization
`places/X ↦ X` itself holds — `X` here being `"places/A"`.) -/
theorem c10_counterexample :
    hospitalIdOf c10Place = "places/A" ∧
      startsWithPlaces (hospitalIdOf c10Place) = true ∧
      (enrich [c10Place] [] emptyStore).map (fun r => r.hospital_id)
        = ["places/A"] := by
  refine ⟨by decide, by decide, by decide⟩

lemma applyCamera_id_at (cfg : Config) (ocrReady : Bool)
    (camFetch : String → Option String) (counts : String → ℕ) (now : String)
    (target : Option ℕ) (sorted : List Row) (j : ℕ) (row2 : Row)
    (h : (applyCamera cfg ocrReady camFetch counts now target sorted)[j]? = some row2) :
    ∃ r1, sorted[j]? = some r1 ∧ row2.hospital_id = r1.hospital_id := by
  have hmap := applyCamera_row_fields cfg ocrReady camFetch counts now target sorted j
  rw [h] at hmap
  cases hs : sorted[j]? with
  | none => rw [hs] at hmap; simp at hmap
  | some r1 =>
      rw [hs] at hmap
      simp at hmap
      exact ⟨r1, rfl, hmap.1⟩

/-- C10 (amended): the id derivation strips exactly one leading `"places/"`
marker: a candidate id of the form `places/X` is normalized to `X` before the
cache read, before any cache write, and before inclusion in the response (so
a later `GET /camera-frame/X` addresses the same record).  The response id
therefore carries no `"places/"` marker **unless the remainder `X` itself
begins with `"places/"`** (see the counterexample): the strip is applied
once, not iterated. -/
theorem c10_normalized_ids (cfg : Config) (places : List Place)
    (matrix : List MatrixRow) (store : WaitStore) (ocrReady : Bool)
    (camFetch : String → Option String) (counts : String → ℕ) (rng : ℕ → ℕ)
    (now : String) (stats : List (ℕ × Option ℚ × Option ℚ)) (sorted : List Row)
    (hok : correlate matrix = Except.ok stats)
    (hsort : sortE (enrich places stats store) = Except.ok sorted) :
    (∀ (p : Place) (x : String),
      (if p.id = "" then p.name else p.id) = "places/" ++ x → hospitalIdOf p = x) ∧
      (∀ (i : ℕ) (p : Place),
        (enrichRow store stats i p).hospital_id = hospitalIdOf p ∧
          (enrichRow store stats i p).current_people
            = (get_wait_for_hospital store (hospitalIdOf p)).map
                (fun wt => wt.people)) ∧
      ∃ resp store',
        nearby cfg places matrix store ocrReady camFetch counts rng now
            = Except.ok (resp, store') ∧
          (∀ row ∈ resp.hospitals, ∃ p ∈ places, row.hospital_id = hospitalIdOf p) ∧
          (∀ key, store' key ≠ store key → ∃ p ∈ places, key = hospitalIdOf p) := by
  refine ⟨hospitalIdOf_strip, ?_, ?_⟩
  · intro i p
    exact ⟨enrichRow_hospital_id store stats i p, enrichRow_current_people store stats i p⟩
  · have hok2 := nearby_ok_unfold cfg places matrix store ocrReady camFetch counts
      rng now stats sorted hok hsort
    refine ⟨_, _, hok2, ?_, ?_⟩
    · intro row hrow
      obtain ⟨j, hj⟩ := List.mem_iff_getElem?.mp hrow
      obtain ⟨r2, h2, hid2, _, _⟩ :=
        rngLoop_row_fields cfg _ rng now _ 0 0 store j row hj
      obtain ⟨r1, h1, hid1⟩ := applyCamera_id_at cfg ocrReady camFetch counts now
        (chooseTarget cfg sorted) sorted j r2 h2
      have hmem1 : r1 ∈ enrich places stats store :=
        (sortE_perm _ _ hsort).subset (List.getElem?_mem h1)
      obtain ⟨p, hp, hpid⟩ := enrich_mem_id places stats store r1 hmem1
      exact ⟨p, hp, by rw [hid2, hid1, hpid]⟩
    · intro key hne
      obtain ⟨rec, _, _, _, j, row2, hrow2, hid, _⟩ :=
        rngLoop_writes cfg (chooseTarget cfg sorted) rng now _ 0 0 store key hne
      obtain ⟨r1, h1, hid1⟩ := applyCamera_id_at cfg ocrReady camFetch counts now
        (chooseTarget cfg sorted) sorted j row2 hrow2
      have hmem1 : r1 ∈ enrich places stats store :=
        (sortE_perm _ _ hsort).subset (List.getElem?_mem h1)
      obtain ⟨p, hp, hpid⟩ := enrich_mem_id places stats store r1 hmem1
      exact ⟨p, hp, by rw [← hid, hid1, hpid]⟩

def c10wPlace : Place :=
  { id := "places/B", name := "B Hospital", lat := 3, lng := 101, maps_url := none }

def c10wCfg : Config :=
  { PRIMARY_CAMERA_ID := "", PRIMARY_CAMERA_URLS := [], PER_PERSON_FOR_CAMERA := 10
    ENABLE_MOCK_RNG := false }

def c10wRow : Row :=
  { hospital_id := "B", hospital_name := "B Hospital"
    google_maps_location_link := none, distance_km := none, eta_minutes := none
    current_people := none, current_estimated_wait_minutes := none
    wait_last_updated := none, camera_used := none }

theorem c10_witness :
    (∀ (p : Place) (x : String),
      (if p.id = "" then p.name else p.id) = "places/" ++ x → hospitalIdOf p = x) ∧
      (∀ (i : ℕ) (p : Place),
        (enrichRow emptyStore [] i p).hospital_id = hospitalIdOf p ∧
          (enrichRow emptyStore [] i p).current_people
            = (get_wait_for_hospital emptyStore (hospitalIdOf p)).map
                (fun wt => wt.people)) ∧
      ∃ resp store',
        nearby c10wCfg [c10wPlace] [] emptyStore false (fun _ => none) (fun _ => 0)
            (fun _ => 0) "T" = Except.ok (resp, store') ∧
          (∀ row ∈ resp.hospitals,
            ∃ p ∈ [c10wPlace], row.hospital_id = hospitalIdOf p) ∧
          (∀ key, store' key ≠ emptyStore key →
            ∃ p ∈ [c10wPlace], key = hospitalIdOf p) :=
  c10_normalized_ids c10wCfg [c10wPlace] [] emptyStore false (fun _ => none)
    (fun _ => 0) (fun _ => 0) "T" [] [c10wRow] (by decide) (by decide)
